import Mathlib

/-!
# Locator resource reconciler (`internal/provider/locator_resource.go`)

A shallow embedding of the CRUD and import handlers of `locatorResource`.

The handlers are sequential Go code that talks to three collaborators whose
code is outside the file: the plugin framework (`tfsdk.Plan`, `tfsdk.State`,
`diag.Diagnostics`), the record codec `tfutils` and the REST client
`apiclient.EdaApiClient`.  The codec, the client and the framework's
plan/state accessors are taken as parameters (`Collaborators`); the
diagnostics list is modelled from the framework's documented behaviour.

Every handler is a function from the remote world and the incoming
response to a `Run`: the remote world after the handler, the response's
diagnostics and state on return, and the calls the handler made to its
collaborators, in program order.  Logging (`tflog`, `spew`) and wall-clock
timing only feed log entries and are left out, and so are `Metadata`, `Schema`
and `Configure`, which make no remote call.

A handler takes its input for decoded when the response holds no error
diagnostic after the decoded diagnostics are appended (the `HasError` test
that follows `Plan.Get` or `State.Get`); the statements below call this "the
decode guard passes".
-/

namespace Locator

/-! ## Path templates (lines 18-22) -/

def create_rs_locator : String :=
  "/workflows/v1/support.eda.nokia.com/v1alpha1/namespaces/{namespace}/locators"

def read_rs_locator : String :=
  "/workflows/v1/support.eda.nokia.com/v1alpha1/namespaces/{namespace}/locators/{name}"

def delete_rs_locator : String :=
  "/workflows/v1/support.eda.nokia.com/v1alpha1/namespaces/{namespace}/locators/{name}"

/-! ## Diagnostics (plugin framework, `diag.Diagnostics`) -/

inductive Severity where
  | error
  | warning
deriving DecidableEq, Repr

structure Diagnostic where
  severity : Severity
  summary : String
  detail : String
deriving DecidableEq, Repr

abbrev Diagnostics := List Diagnostic

/-- Framework `Diagnostics.Append`: adds the diagnostics one by one, skipping
any that the collection already contains. -/
def Diagnostics.Append (diags : Diagnostics) : Diagnostics → Diagnostics
  | [] => diags
  | d :: ds =>
    if d ∈ diags then Diagnostics.Append diags ds
    else Diagnostics.Append (diags ++ [d]) ds

/-- Framework `Diagnostics.AddError`: appends a new error diagnostic. -/
def Diagnostics.AddError (diags : Diagnostics) (summary detail : String) : Diagnostics :=
  Diagnostics.Append diags [⟨Severity.error, summary, detail⟩]

/-- Framework `Diagnostics.HasError`: some diagnostic has error severity. -/
def Diagnostics.HasError (diags : Diagnostics) : Bool :=
  diags.any (fun d => d.severity == Severity.error)

/-- The error diagnostics of a collection (framework `Diagnostics.Errors`). -/
def Diagnostics.Errors (diags : Diagnostics) : Diagnostics :=
  diags.filter (fun d => d.severity == Severity.error)

/-! ## Collaborators -/

/-- A Go `map[string]string` literal, as the list of its entries. -/
abbrev Params := List (String × String)

/-- The code the handlers call and the file does not contain.

* `C` is `apiclient.EdaApiClient`, `σ` the state of the remote control plane,
  `P` `tfsdk.Plan`, `S` `tfsdk.State`, `M` `resource_locator.LocatorModel`,
  `Wire` `map[string]any`.
* `PlanGet`/`StateGet` decode into a fresh model and return the diagnostics.
* `FillMissingValues` and `AnyMapToModel` update the record they are given
  through a pointer: they return the error or the updated record.
* The client verbs take the `*EdaApiClient` receiver (possibly nil), the path
  template, the parameter map, for `Create` the body, and the current content
  of the `result` map that is passed by pointer; they return the new world
  and either the error or the content of `result` after the call. -/
structure Collaborators (C σ P S M Wire : Type) where
  PlanGet : P → Diagnostics × M
  StateGet : S → Diagnostics × M
  StateSet : S → M → Diagnostics × S
  StateSetAttribute : S → List String → String → Diagnostics × S
  FillMissingValues : M → Except String M
  ModelToAnyMap : M → Except String Wire
  AnyMapToModel : Wire → M → Except String M
  /-- The text of `tfutils.StringValue(data.Metadata.Namespace)`. -/
  MetadataNamespace : M → String
  /-- The text of `tfutils.StringValue(data.Metadata.Name)`. -/
  MetadataName : M → String
  /-- The empty map `map[string]any{}`. -/
  emptyResult : Wire
  ClientCreate : σ → Option C → String → Params → Wire → Wire → σ × Except String Wire
  ClientGet : σ → Option C → String → Params → Wire → σ × Except String Wire
  ClientDelete : σ → Option C → String → Params → Wire → σ × Except String Wire

/-- The receiver: `client` is nil until `Configure` stores a client. -/
structure locatorResource (C : Type) where
  client : Option C

def NewLocatorResource (C : Type) : locatorResource C := ⟨none⟩

/-- A call made by a handler to one of its collaborators. -/
inductive Call (M Wire : Type) where
  | PlanGet
  | StateGet
  | FillMissingValues
  | ModelToAnyMap
  | ClientCreate (path : String) (params : Params) (body : Wire)
  | ClientGet (path : String) (params : Params)
  | ClientDelete (path : String) (params : Params)
  | AnyMapToModel (result : Wire)
  | StateSet (data : M)
  | StateSetAttribute (path : List String) (value : String)
deriving DecidableEq, Repr

/-- Calls to the Remote Client. -/
def Call.isRemote {M Wire : Type} : Call M Wire → Bool
  | .ClientCreate _ _ _ => true
  | .ClientGet _ _ => true
  | .ClientDelete _ _ => true
  | _ => false

/-- Calls that write the response state. -/
def Call.isStateWrite {M Wire : Type} : Call M Wire → Bool
  | .StateSet _ => true
  | .StateSetAttribute _ _ => true
  | _ => false

/-- The `Diagnostics` and `State` fields of a framework response. -/
structure Response (S : Type) where
  Diagnostics : Diagnostics
  State : S

/-- What a handler leaves behind. -/
structure Run (σ S M Wire : Type) where
  world : σ
  Diagnostics : Diagnostics
  State : S
  calls : List (Call M Wire)
deriving DecidableEq

structure CreateRequest (P : Type) where
  Plan : P

structure ReadRequest (S : Type) where
  State : S

structure UpdateRequest (G P S : Type) where
  Config : G
  Plan : P
  State : S

structure DeleteRequest (S : Type) where
  State : S

structure ImportStateRequest where
  ID : String

/-! ## Handlers -/

section Handlers

variable {C σ P S M Wire : Type}

/-- Handler `locatorResource.Create` (lines 46-121). -/
def Create (k : Collaborators C σ P S M Wire) (r : locatorResource C) (w : σ)
    (req : CreateRequest P) (resp : Response S) : Run σ S M Wire :=
  let diags := resp.Diagnostics.Append (k.PlanGet req.Plan).1
  let data := (k.PlanGet req.Plan).2
  if diags.HasError then
    ⟨w, diags, resp.State, [.PlanGet]⟩
  else
    match k.FillMissingValues data with
    | .error err =>
      ⟨w, diags.AddError "Error filling missing values" err, resp.State,
        [.PlanGet, .FillMissingValues]⟩
    | .ok data =>
      match k.ModelToAnyMap data with
      | .error err =>
        ⟨w, diags.AddError "Error building request" err, resp.State,
          [.PlanGet, .FillMissingValues, .ModelToAnyMap]⟩
      | .ok reqBody =>
        let createParams : Params := [("namespace", k.MetadataNamespace data)]
        let readParams : Params :=
          [("namespace", k.MetadataNamespace data), ("name", k.MetadataName data)]
        match k.ClientCreate w r.client create_rs_locator createParams reqBody k.emptyResult with
        | (w, .error err) =>
          ⟨w, diags.AddError "Error creating resource" err, resp.State,
            [.PlanGet, .FillMissingValues, .ModelToAnyMap,
             .ClientCreate create_rs_locator createParams reqBody]⟩
        | (w, .ok result) =>
          match k.ClientGet w r.client read_rs_locator readParams result with
          | (w, .error err) =>
            ⟨w, diags.AddError "Error reading resource" err, resp.State,
              [.PlanGet, .FillMissingValues, .ModelToAnyMap,
               .ClientCreate create_rs_locator createParams reqBody,
               .ClientGet read_rs_locator readParams]⟩
          | (w, .ok result) =>
            match k.AnyMapToModel result data with
            | .error err =>
              ⟨w, diags.AddError "Failed to build response from API result" err, resp.State,
                [.PlanGet, .FillMissingValues, .ModelToAnyMap,
                 .ClientCreate create_rs_locator createParams reqBody,
                 .ClientGet read_rs_locator readParams, .AnyMapToModel result]⟩
            | .ok data =>
              ⟨w, diags.Append (k.StateSet resp.State data).1, (k.StateSet resp.State data).2,
                [.PlanGet, .FillMissingValues, .ModelToAnyMap,
                 .ClientCreate create_rs_locator createParams reqBody,
                 .ClientGet read_rs_locator readParams, .AnyMapToModel result,
                 .StateSet data]⟩

/-- Handler `locatorResource.Read` (lines 123-167). -/
def Read (k : Collaborators C σ P S M Wire) (r : locatorResource C) (w : σ)
    (req : ReadRequest S) (resp : Response S) : Run σ S M Wire :=
  let diags := resp.Diagnostics.Append (k.StateGet req.State).1
  let data := (k.StateGet req.State).2
  if diags.HasError then
    ⟨w, diags, resp.State, [.StateGet]⟩
  else
    let readParams : Params :=
      [("namespace", k.MetadataNamespace data), ("name", k.MetadataName data)]
    match k.ClientGet w r.client read_rs_locator readParams k.emptyResult with
    | (w, .error err) =>
      ⟨w, diags.AddError "Error reading resource" err, resp.State,
        [.StateGet, .ClientGet read_rs_locator readParams]⟩
    | (w, .ok result) =>
      match k.AnyMapToModel result data with
      | .error err =>
        ⟨w, diags.AddError "Failed to build response from API result" err, resp.State,
          [.StateGet, .ClientGet read_rs_locator readParams, .AnyMapToModel result]⟩
      | .ok data =>
        ⟨w, diags.Append (k.StateSet resp.State data).1, (k.StateSet resp.State data).2,
          [.StateGet, .ClientGet read_rs_locator readParams, .AnyMapToModel result,
           .StateSet data]⟩

/-- Handler `locatorResource.Update` (lines 169-172). -/
def Update {G : Type} (_r : locatorResource C) (w : σ) (_req : UpdateRequest G P S)
    (resp : Response S) : Run σ S M Wire :=
  ⟨w, resp.Diagnostics.AddError "Update not supported"
      "This resource does not support update operation.", resp.State, []⟩

/-- Handler `locatorResource.Delete` (lines 174-208). -/
def Delete (k : Collaborators C σ P S M Wire) (r : locatorResource C) (w : σ)
    (req : DeleteRequest S) (resp : Response S) : Run σ S M Wire :=
  let diags := resp.Diagnostics.Append (k.StateGet req.State).1
  let data := (k.StateGet req.State).2
  if diags.HasError then
    ⟨w, diags, resp.State, [.StateGet]⟩
  else
    let deleteParams : Params :=
      [("namespace", k.MetadataNamespace data), ("name", k.MetadataName data)]
    match k.ClientDelete w r.client delete_rs_locator deleteParams k.emptyResult with
    | (w, .error err) =>
      ⟨w, diags.AddError "Error deleting resource" err, resp.State,
        [.StateGet, .ClientDelete delete_rs_locator deleteParams]⟩
    | (w, .ok _) =>
      ⟨w, diags, resp.State, [.StateGet, .ClientDelete delete_rs_locator deleteParams]⟩

/-- Go `strings.Split(s, "/")` on the characters of `s`: the pieces between
consecutive separators; a string without separator gives one piece. -/
def splitChars (sep : Char) : List Char → List (List Char)
  | [] => [[]]
  | c :: cs =>
    if c = sep then [] :: splitChars sep cs
    else
      match splitChars sep cs with
      | [] => [[c]]
      | p :: ps => (c :: p) :: ps

def strings_Split (s : String) (sep : Char) : List String :=
  (splitChars sep s.data).map String.mk

/-- Handler `locatorResource.ImportState` (lines 231-239).  `parts[0]` and
`parts[1]` are read with a default that the length test makes unreachable. -/
def ImportState (k : Collaborators C σ P S M Wire) (_r : locatorResource C) (w : σ)
    (req : ImportStateRequest) (resp : Response S) : Run σ S M Wire :=
  let parts := strings_Split req.ID '/'
  if parts.length < 2 then
    ⟨w, resp.Diagnostics.AddError "Invalid ID"
        ("Expected format: id = <namespace/name>, got: id = " ++ req.ID), resp.State, []⟩
  else
    let s1 := k.StateSetAttribute resp.State ["metadata", "namespace"] (parts.getD 0 "")
    let s2 := k.StateSetAttribute s1.2 ["metadata", "name"] (parts.getD 1 "")
    ⟨w, (resp.Diagnostics.Append s1.1).Append s2.1, s2.2,
      [.StateSetAttribute ["metadata", "namespace"] (parts.getD 0 ""),
       .StateSetAttribute ["metadata", "name"] (parts.getD 1 "")]⟩

end Handlers

/-! ## The segments of an import identifier, as the specification words them -/

/-- The text of `id` before its first "/" (all of `id` when it has none). -/
def firstSegment (id : String) : String :=
  String.mk (id.data.takeWhile (fun c => c != '/'))

/-- The text of `id` between its first "/" and its second "/", or the end of
`id` when there is no second "/". -/
def secondSegment (id : String) : String :=
  String.mk (((id.data.dropWhile (fun c => c != '/')).drop 1).takeWhile (fun c => c != '/'))

/-! ## The record codec, as the specification words it -/

/-- Modelled from the spec: `tfutils.AnyMapToModel`, the `FromWire` of the
Record Codec, is not under `src/`.  Section 4.2, step 3 has the wire
representation converted to the record shape "overwriting the caller's prior
record entirely (full replacement, not merge)": the outcome of the conversion
is a function `FromWire` of the wire map alone, whatever record the handler
converts onto.  The other collaborators are left as they are. -/
def withFullReplacement {C σ P S M Wire : Type} (k : Collaborators C σ P S M Wire)
    (FromWire : Wire → Except String M) : Collaborators C σ P S M Wire :=
  { k with AnyMapToModel := fun result _ => FromWire result }

/-! ## A concrete control plane

A small instance of the collaborators, used to run the handlers on concrete
inputs: a four-field record, wire maps with string values, a remote whose
state is the list of replies it will give, and a client whose verbs return
the reply as the wire result. -/

namespace Demo

structure LocatorModel where
  Namespace : String
  Name : String
  Note : String
  Uid : String
deriving DecidableEq, Repr

abbrev Wire := List (String × String)

abbrev Remote := List (Except String Wire)

deriving instance DecidableEq for Except

def field (key : String) (m : Wire) : String :=
  (m.lookup key).getD ""

def call (w : Remote) (_result : Wire) : Remote × Except String Wire :=
  match w with
  | [] => ([], .error "no reply")
  | .error e :: rest => (rest, .error e)
  | .ok reply :: rest => (rest, .ok reply)

def decode : Option LocatorModel → Diagnostics × LocatorModel
  | none => ([⟨Severity.error, "Value Conversion Error", "no value"⟩], ⟨"", "", "", ""⟩)
  | some d => ([], d)

def setAttribute (s : Option LocatorModel) (path : List String) (v : String) :
    Diagnostics × Option LocatorModel :=
  let d := s.getD ⟨"", "", "", ""⟩
  if path = ["metadata", "namespace"] then ([], some { d with Namespace := v })
  else if path = ["metadata", "name"] then ([], some { d with Name := v })
  else ([⟨Severity.error, "Invalid path", "no such attribute"⟩], s)

def fill (d : LocatorModel) : Except String LocatorModel :=
  if d.Name = "" then .error "metadata.name is unknown" else .ok d

def toWire (d : LocatorModel) : Except String Wire :=
  if d.Namespace = "" then .error "metadata.namespace is empty"
  else .ok [("namespace", d.Namespace), ("name", d.Name), ("note", d.Note)]

/-- Full replacement: every field is read from the wire map. -/
def fromWire (m : Wire) (_d : LocatorModel) : Except String LocatorModel :=
  if (m.lookup "name").isNone then .error "result has no name"
  else .ok ⟨field "namespace" m, field "name" m, field "note" m, field "uid" m⟩

def collab : Collaborators Unit Remote (Option LocatorModel) (Option LocatorModel)
    LocatorModel Wire where
  PlanGet := decode
  StateGet := decode
  StateSet := fun _ d => ([], some d)
  StateSetAttribute := setAttribute
  FillMissingValues := fill
  ModelToAnyMap := toWire
  AnyMapToModel := fromWire
  MetadataNamespace := fun d => d.Namespace
  MetadataName := fun d => d.Name
  emptyResult := []
  ClientCreate := fun w _ _ _ _ result => call w result
  ClientGet := fun w _ _ _ result => call w result
  ClientDelete := fun w _ _ _ result => call w result

def rs : locatorResource Unit := ⟨some ()⟩

def plan : LocatorModel := ⟨"prod", "loc-1", "rack 7", ""⟩

def served : Wire := [("namespace", "prod"), ("name", "loc-1"), ("note", "rack 7")]

def blank : Response (Option LocatorModel) := ⟨[], none⟩

/-- The object as the remote holds it once created: with its generated
identifier. -/
def created : Wire := ("uid", "u-1") :: served

/-- The object the remote holds under `ns1/loc1`. -/
def adopted : Wire := [("namespace", "ns1"), ("name", "loc1"), ("note", "rack 9")]

end Demo

/-! ## Facts about diagnostics -/

theorem Diagnostics.mem_Append (d : Diagnostic) (es ds : Diagnostics) :
    d ∈ Diagnostics.Append ds es ↔ d ∈ ds ∨ d ∈ es := by
  induction es generalizing ds with
  | nil => simp [Diagnostics.Append]
  | cons e es ih =>
    unfold Diagnostics.Append
    by_cases h : e ∈ ds
    · rw [if_pos h, ih]
      constructor
      · rintro (h1 | h1)
        · exact Or.inl h1
        · exact Or.inr (List.mem_cons_of_mem _ h1)
      · rintro (h1 | h1)
        · exact Or.inl h1
        · rcases List.mem_cons.mp h1 with h2 | h2
          · exact Or.inl (h2 ▸ h)
          · exact Or.inr h2
    · rw [if_neg h, ih]
      simp only [List.mem_append, List.mem_singleton, List.mem_cons]
      tauto

theorem Diagnostics.HasError_iff (ds : Diagnostics) :
    ds.HasError = true ↔ ∃ d ∈ ds, d.severity = Severity.error := by
  simp [Diagnostics.HasError]

theorem Diagnostics.HasError_Append (ds es : Diagnostics) :
    (ds.Append es).HasError = (ds.HasError || es.HasError) := by
  rw [Bool.eq_iff_iff, Bool.or_eq_true]
  simp only [Diagnostics.HasError_iff, Diagnostics.mem_Append]
  constructor
  · rintro ⟨d, h1 | h1, h2⟩
    · exact Or.inl ⟨d, h1, h2⟩
    · exact Or.inr ⟨d, h1, h2⟩
  · rintro (⟨d, h1, h2⟩ | ⟨d, h1, h2⟩)
    · exact ⟨d, Or.inl h1, h2⟩
    · exact ⟨d, Or.inr h1, h2⟩

theorem Diagnostics.HasError_AddError (ds : Diagnostics) (summary detail : String) :
    (ds.AddError summary detail).HasError = true := by
  rw [Diagnostics.AddError, Diagnostics.HasError_Append]
  simp [Diagnostics.HasError]

theorem Diagnostics.mem_AddError (ds : Diagnostics) (summary detail : String) :
    (⟨Severity.error, summary, detail⟩ : Diagnostic) ∈ ds.AddError summary detail := by
  rw [Diagnostics.AddError, Diagnostics.mem_Append]
  exact Or.inr (List.mem_singleton.mpr rfl)

theorem Diagnostics.Errors_eq_nil (ds : Diagnostics) (h : ds.HasError = false) :
    ds.Errors = [] := by
  rw [Diagnostics.Errors, List.filter_eq_nil_iff]
  intro d hd hs
  have : ds.HasError = true := by
    rw [Diagnostics.HasError_iff]
    exact ⟨d, hd, by simpa using hs⟩
  rw [h] at this
  exact Bool.noConfusion this

/-- On a collection without errors, `AddError` appends exactly one diagnostic. -/
theorem Diagnostics.AddError_of_no_error (ds : Diagnostics) (summary detail : String)
    (h : ds.HasError = false) :
    ds.AddError summary detail = ds ++ [⟨Severity.error, summary, detail⟩] := by
  have hn : (⟨Severity.error, summary, detail⟩ : Diagnostic) ∉ ds := by
    intro hm
    have : ds.HasError = true := by
      rw [Diagnostics.HasError_iff]
      exact ⟨_, hm, rfl⟩
    rw [h] at this
    exact Bool.noConfusion this
  simp [Diagnostics.AddError, Diagnostics.Append, hn]

theorem Diagnostics.Errors_AddError (ds : Diagnostics) (summary detail : String)
    (h : ds.HasError = false) :
    (ds.AddError summary detail).Errors = [⟨Severity.error, summary, detail⟩] := by
  rw [Diagnostics.AddError_of_no_error ds summary detail h, Diagnostics.Errors,
    List.filter_append]
  have h0 := Diagnostics.Errors_eq_nil ds h
  rw [Diagnostics.Errors] at h0
  rw [h0]
  simp

theorem Diagnostics.nil_Append_HasError (es : Diagnostics) :
    (Diagnostics.Append [] es).HasError = es.HasError := by
  rw [Diagnostics.HasError_Append]
  simp [Diagnostics.HasError]

/-! ## The handlers, path by path -/

section Paths

variable {C σ P S M Wire : Type}

theorem Create_decode_failed (k : Collaborators C σ P S M Wire) (r : locatorResource C) (w : σ)
    (req : CreateRequest P) (resp : Response S)
    (hg : (resp.Diagnostics.Append (k.PlanGet req.Plan).1).HasError = true) :
    Create k r w req resp =
      ⟨w, resp.Diagnostics.Append (k.PlanGet req.Plan).1, resp.State, [.PlanGet]⟩ := by
  simp [Create, hg]

theorem Create_fill_failed (k : Collaborators C σ P S M Wire) (r : locatorResource C) (w : σ)
    (req : CreateRequest P) (resp : Response S) (e : String)
    (hg : (resp.Diagnostics.Append (k.PlanGet req.Plan).1).HasError = false)
    (hf : k.FillMissingValues (k.PlanGet req.Plan).2 = .error e) :
    Create k r w req resp =
      ⟨w, (resp.Diagnostics.Append (k.PlanGet req.Plan).1).AddError
            "Error filling missing values" e,
        resp.State, [.PlanGet, .FillMissingValues]⟩ := by
  simp [Create, hg, hf]

theorem Create_toWire_failed (k : Collaborators C σ P S M Wire) (r : locatorResource C) (w : σ)
    (req : CreateRequest P) (resp : Response S) (d1 : M) (e : String)
    (hg : (resp.Diagnostics.Append (k.PlanGet req.Plan).1).HasError = false)
    (hf : k.FillMissingValues (k.PlanGet req.Plan).2 = .ok d1)
    (ht : k.ModelToAnyMap d1 = .error e) :
    Create k r w req resp =
      ⟨w, (resp.Diagnostics.Append (k.PlanGet req.Plan).1).AddError "Error building request" e,
        resp.State, [.PlanGet, .FillMissingValues, .ModelToAnyMap]⟩ := by
  simp [Create, hg, hf, ht]

theorem Create_create_failed (k : Collaborators C σ P S M Wire) (r : locatorResource C) (w : σ)
    (req : CreateRequest P) (resp : Response S) (d1 : M) (body : Wire) (w1 : σ) (e : String)
    (hg : (resp.Diagnostics.Append (k.PlanGet req.Plan).1).HasError = false)
    (hf : k.FillMissingValues (k.PlanGet req.Plan).2 = .ok d1)
    (ht : k.ModelToAnyMap d1 = .ok body)
    (hc : k.ClientCreate w r.client create_rs_locator [("namespace", k.MetadataNamespace d1)]
            body k.emptyResult = (w1, .error e)) :
    Create k r w req resp =
      ⟨w1, (resp.Diagnostics.Append (k.PlanGet req.Plan).1).AddError "Error creating resource" e,
        resp.State,
        [.PlanGet, .FillMissingValues, .ModelToAnyMap,
         .ClientCreate create_rs_locator [("namespace", k.MetadataNamespace d1)] body]⟩ := by
  simp [Create, hg, hf, ht, hc]

theorem Create_get_failed (k : Collaborators C σ P S M Wire) (r : locatorResource C) (w : σ)
    (req : CreateRequest P) (resp : Response S) (d1 : M) (body : Wire) (w1 w2 : σ)
    (res1 : Wire) (e : String)
    (hg : (resp.Diagnostics.Append (k.PlanGet req.Plan).1).HasError = false)
    (hf : k.FillMissingValues (k.PlanGet req.Plan).2 = .ok d1)
    (ht : k.ModelToAnyMap d1 = .ok body)
    (hc : k.ClientCreate w r.client create_rs_locator [("namespace", k.MetadataNamespace d1)]
            body k.emptyResult = (w1, .ok res1))
    (hr : k.ClientGet w1 r.client read_rs_locator
            [("namespace", k.MetadataNamespace d1), ("name", k.MetadataName d1)] res1
            = (w2, .error e)) :
    Create k r w req resp =
      ⟨w2, (resp.Diagnostics.Append (k.PlanGet req.Plan).1).AddError "Error reading resource" e,
        resp.State,
        [.PlanGet, .FillMissingValues, .ModelToAnyMap,
         .ClientCreate create_rs_locator [("namespace", k.MetadataNamespace d1)] body,
         .ClientGet read_rs_locator
            [("namespace", k.MetadataNamespace d1), ("name", k.MetadataName d1)]]⟩ := by
  simp [Create, hg, hf, ht, hc, hr]

theorem Create_fromWire_failed (k : Collaborators C σ P S M Wire) (r : locatorResource C)
    (w : σ) (req : CreateRequest P) (resp : Response S) (d1 : M) (body : Wire) (w1 w2 : σ)
    (res1 res2 : Wire) (e : String)
    (hg : (resp.Diagnostics.Append (k.PlanGet req.Plan).1).HasError = false)
    (hf : k.FillMissingValues (k.PlanGet req.Plan).2 = .ok d1)
    (ht : k.ModelToAnyMap d1 = .ok body)
    (hc : k.ClientCreate w r.client create_rs_locator [("namespace", k.MetadataNamespace d1)]
            body k.emptyResult = (w1, .ok res1))
    (hr : k.ClientGet w1 r.client read_rs_locator
            [("namespace", k.MetadataNamespace d1), ("name", k.MetadataName d1)] res1
            = (w2, .ok res2))
    (hm : k.AnyMapToModel res2 d1 = .error e) :
    Create k r w req resp =
      ⟨w2, (resp.Diagnostics.Append (k.PlanGet req.Plan).1).AddError
            "Failed to build response from API result" e,
        resp.State,
        [.PlanGet, .FillMissingValues, .ModelToAnyMap,
         .ClientCreate create_rs_locator [("namespace", k.MetadataNamespace d1)] body,
         .ClientGet read_rs_locator
            [("namespace", k.MetadataNamespace d1), ("name", k.MetadataName d1)],
         .AnyMapToModel res2]⟩ := by
  simp [Create, hg, hf, ht, hc, hr, hm]

theorem Create_succeeded (k : Collaborators C σ P S M Wire) (r : locatorResource C)
    (w : σ) (req : CreateRequest P) (resp : Response S) (d1 : M) (body : Wire) (w1 w2 : σ)
    (res1 res2 : Wire) (d2 : M)
    (hg : (resp.Diagnostics.Append (k.PlanGet req.Plan).1).HasError = false)
    (hf : k.FillMissingValues (k.PlanGet req.Plan).2 = .ok d1)
    (ht : k.ModelToAnyMap d1 = .ok body)
    (hc : k.ClientCreate w r.client create_rs_locator [("namespace", k.MetadataNamespace d1)]
            body k.emptyResult = (w1, .ok res1))
    (hr : k.ClientGet w1 r.client read_rs_locator
            [("namespace", k.MetadataNamespace d1), ("name", k.MetadataName d1)] res1
            = (w2, .ok res2))
    (hm : k.AnyMapToModel res2 d1 = .ok d2) :
    Create k r w req resp =
      ⟨w2, (resp.Diagnostics.Append (k.PlanGet req.Plan).1).Append (k.StateSet resp.State d2).1,
        (k.StateSet resp.State d2).2,
        [.PlanGet, .FillMissingValues, .ModelToAnyMap,
         .ClientCreate create_rs_locator [("namespace", k.MetadataNamespace d1)] body,
         .ClientGet read_rs_locator
            [("namespace", k.MetadataNamespace d1), ("name", k.MetadataName d1)],
         .AnyMapToModel res2, .StateSet d2]⟩ := by
  simp [Create, hg, hf, ht, hc, hr, hm]

theorem Read_decode_failed (k : Collaborators C σ P S M Wire) (r : locatorResource C) (w : σ)
    (req : ReadRequest S) (resp : Response S)
    (hg : (resp.Diagnostics.Append (k.StateGet req.State).1).HasError = true) :
    Read k r w req resp =
      ⟨w, resp.Diagnostics.Append (k.StateGet req.State).1, resp.State, [.StateGet]⟩ := by
  simp [Read, hg]

theorem Read_get_failed (k : Collaborators C σ P S M Wire) (r : locatorResource C) (w : σ)
    (req : ReadRequest S) (resp : Response S) (w1 : σ) (e : String)
    (hg : (resp.Diagnostics.Append (k.StateGet req.State).1).HasError = false)
    (hr : k.ClientGet w r.client read_rs_locator
            [("namespace", k.MetadataNamespace (k.StateGet req.State).2),
             ("name", k.MetadataName (k.StateGet req.State).2)] k.emptyResult
            = (w1, .error e)) :
    Read k r w req resp =
      ⟨w1, (resp.Diagnostics.Append (k.StateGet req.State).1).AddError "Error reading resource" e,
        resp.State,
        [.StateGet, .ClientGet read_rs_locator
            [("namespace", k.MetadataNamespace (k.StateGet req.State).2),
             ("name", k.MetadataName (k.StateGet req.State).2)]]⟩ := by
  simp [Read, hg, hr]

theorem Read_fromWire_failed (k : Collaborators C σ P S M Wire) (r : locatorResource C)
    (w : σ) (req : ReadRequest S) (resp : Response S) (w1 : σ) (res : Wire) (e : String)
    (hg : (resp.Diagnostics.Append (k.StateGet req.State).1).HasError = false)
    (hr : k.ClientGet w r.client read_rs_locator
            [("namespace", k.MetadataNamespace (k.StateGet req.State).2),
             ("name", k.MetadataName (k.StateGet req.State).2)] k.emptyResult
            = (w1, .ok res))
    (hm : k.AnyMapToModel res (k.StateGet req.State).2 = .error e) :
    Read k r w req resp =
      ⟨w1, (resp.Diagnostics.Append (k.StateGet req.State).1).AddError
            "Failed to build response from API result" e,
        resp.State,
        [.StateGet, .ClientGet read_rs_locator
            [("namespace", k.MetadataNamespace (k.StateGet req.State).2),
             ("name", k.MetadataName (k.StateGet req.State).2)],
         .AnyMapToModel res]⟩ := by
  simp [Read, hg, hr, hm]

theorem Read_succeeded (k : Collaborators C σ P S M Wire) (r : locatorResource C)
    (w : σ) (req : ReadRequest S) (resp : Response S) (w1 : σ) (res : Wire) (d2 : M)
    (hg : (resp.Diagnostics.Append (k.StateGet req.State).1).HasError = false)
    (hr : k.ClientGet w r.client read_rs_locator
            [("namespace", k.MetadataNamespace (k.StateGet req.State).2),
             ("name", k.MetadataName (k.StateGet req.State).2)] k.emptyResult
            = (w1, .ok res))
    (hm : k.AnyMapToModel res (k.StateGet req.State).2 = .ok d2) :
    Read k r w req resp =
      ⟨w1, (resp.Diagnostics.Append (k.StateGet req.State).1).Append (k.StateSet resp.State d2).1,
        (k.StateSet resp.State d2).2,
        [.StateGet, .ClientGet read_rs_locator
            [("namespace", k.MetadataNamespace (k.StateGet req.State).2),
             ("name", k.MetadataName (k.StateGet req.State).2)],
         .AnyMapToModel res, .StateSet d2]⟩ := by
  simp [Read, hg, hr, hm]

theorem Delete_decode_failed (k : Collaborators C σ P S M Wire) (r : locatorResource C) (w : σ)
    (req : DeleteRequest S) (resp : Response S)
    (hg : (resp.Diagnostics.Append (k.StateGet req.State).1).HasError = true) :
    Delete k r w req resp =
      ⟨w, resp.Diagnostics.Append (k.StateGet req.State).1, resp.State, [.StateGet]⟩ := by
  simp [Delete, hg]

theorem Delete_failed (k : Collaborators C σ P S M Wire) (r : locatorResource C) (w : σ)
    (req : DeleteRequest S) (resp : Response S) (w1 : σ) (e : String)
    (hg : (resp.Diagnostics.Append (k.StateGet req.State).1).HasError = false)
    (hd : k.ClientDelete w r.client delete_rs_locator
            [("namespace", k.MetadataNamespace (k.StateGet req.State).2),
             ("name", k.MetadataName (k.StateGet req.State).2)] k.emptyResult
            = (w1, .error e)) :
    Delete k r w req resp =
      ⟨w1, (resp.Diagnostics.Append (k.StateGet req.State).1).AddError
            "Error deleting resource" e,
        resp.State,
        [.StateGet, .ClientDelete delete_rs_locator
            [("namespace", k.MetadataNamespace (k.StateGet req.State).2),
             ("name", k.MetadataName (k.StateGet req.State).2)]]⟩ := by
  simp [Delete, hg, hd]

theorem Delete_succeeded (k : Collaborators C σ P S M Wire) (r : locatorResource C) (w : σ)
    (req : DeleteRequest S) (resp : Response S) (w1 : σ) (res : Wire)
    (hg : (resp.Diagnostics.Append (k.StateGet req.State).1).HasError = false)
    (hd : k.ClientDelete w r.client delete_rs_locator
            [("namespace", k.MetadataNamespace (k.StateGet req.State).2),
             ("name", k.MetadataName (k.StateGet req.State).2)] k.emptyResult
            = (w1, .ok res)) :
    Delete k r w req resp =
      ⟨w1, resp.Diagnostics.Append (k.StateGet req.State).1, resp.State,
        [.StateGet, .ClientDelete delete_rs_locator
            [("namespace", k.MetadataNamespace (k.StateGet req.State).2),
             ("name", k.MetadataName (k.StateGet req.State).2)]]⟩ := by
  simp [Delete, hg, hd]

end Paths


/-! ## Splitting the import identifier -/

theorem splitChars_eq (sep : Char) (cs : List Char) :
    splitChars sep cs =
      cs.takeWhile (fun c => c != sep) ::
        (match cs.dropWhile (fun c => c != sep) with
         | [] => []
         | _ :: rest => splitChars sep rest) := by
  induction cs with
  | nil => simp [splitChars]
  | cons c cs ih =>
    by_cases h : c = sep
    · subst h
      simp [splitChars]
    · rw [splitChars, if_neg h, ih]
      simp [h]

theorem dropWhile_ne_of_mem (sep : Char) (cs : List Char) (h : sep ∈ cs) :
    cs.dropWhile (fun c => c != sep) =
      sep :: (cs.dropWhile (fun c => c != sep)).drop 1 := by
  induction cs with
  | nil => simp at h
  | cons c cs ih =>
    by_cases hc : c = sep
    · subst hc
      simp
    · have h1 : sep ∈ cs := by
        rcases List.mem_cons.mp h with h2 | h2
        · exact absurd h2.symm hc
        · exact h2
      simpa [hc] using ih h1

theorem dropWhile_ne_of_not_mem (sep : Char) (cs : List Char) (h : sep ∉ cs) :
    cs.dropWhile (fun c => c != sep) = [] := by
  induction cs with
  | nil => simp
  | cons c cs ih =>
    have hc : c ≠ sep := fun e => h (e ▸ List.mem_cons_self _ _)
    have h1 : sep ∉ cs := fun e => h (List.mem_cons_of_mem _ e)
    simpa [hc] using ih h1

theorem takeWhile_ne_of_not_mem (sep : Char) (cs : List Char) (h : sep ∉ cs) :
    cs.takeWhile (fun c => c != sep) = cs := by
  induction cs with
  | nil => simp
  | cons c cs ih =>
    have hc : c ≠ sep := fun e => h (e ▸ List.mem_cons_self _ _)
    have h1 : sep ∉ cs := fun e => h (List.mem_cons_of_mem _ e)
    simp [hc, ih h1]

theorem not_mem_takeWhile_ne (sep : Char) (cs : List Char) :
    sep ∉ cs.takeWhile (fun c => c != sep) := by
  intro h
  have := List.mem_takeWhile_imp h
  simp at this

theorem takeWhile_ne_append_sep (sep : Char) (as bs : List Char) (h : sep ∉ as) :
    (as ++ sep :: bs).takeWhile (fun c => c != sep) = as := by
  induction as with
  | nil => simp
  | cons c cs ih =>
    have hc : c ≠ sep := fun e => h (e ▸ List.mem_cons_self _ _)
    have h1 : sep ∉ cs := fun e => h (List.mem_cons_of_mem _ e)
    simp [hc, ih h1]

theorem dropWhile_ne_append_sep (sep : Char) (as bs : List Char) (h : sep ∉ as) :
    (as ++ sep :: bs).dropWhile (fun c => c != sep) = sep :: bs := by
  induction as with
  | nil => simp
  | cons c cs ih =>
    have hc : c ≠ sep := fun e => h (e ▸ List.mem_cons_self _ _)
    have h1 : sep ∉ cs := fun e => h (List.mem_cons_of_mem _ e)
    simp [hc, ih h1]

theorem splitChars_of_not_mem (sep : Char) (cs : List Char) (h : sep ∉ cs) :
    splitChars sep cs = [cs] := by
  rw [splitChars_eq, dropWhile_ne_of_not_mem sep cs h, takeWhile_ne_of_not_mem sep cs h]

theorem splitChars_of_mem (sep : Char) (cs : List Char) (h : sep ∈ cs) :
    ∃ tail, splitChars sep cs =
      cs.takeWhile (fun c => c != sep) ::
        ((cs.dropWhile (fun c => c != sep)).drop 1).takeWhile (fun c => c != sep) :: tail := by
  rw [splitChars_eq sep cs, dropWhile_ne_of_mem sep cs h]
  simp only [List.drop_succ_cons, List.drop_zero]
  rw [splitChars_eq sep ((cs.dropWhile (fun c => c != sep)).drop 1)]
  exact ⟨_, rfl⟩

theorem strings_Split_length_lt_two (id : String) :
    (strings_Split id '/').length < 2 ↔ '/' ∉ id.data := by
  by_cases h : '/' ∈ id.data
  · obtain ⟨tail, ht⟩ := splitChars_of_mem '/' id.data h
    simp [strings_Split, ht, h]
  · simp [strings_Split, splitChars_of_not_mem '/' id.data h, h]

theorem strings_Split_first (id : String) :
    (strings_Split id '/').getD 0 "" = firstSegment id := by
  rw [strings_Split, splitChars_eq]
  simp [firstSegment]

theorem strings_Split_second (id : String) (h : '/' ∈ id.data) :
    (strings_Split id '/').getD 1 "" = secondSegment id := by
  obtain ⟨tail, ht⟩ := splitChars_of_mem '/' id.data h
  simp [strings_Split, ht, secondSegment]

theorem ImportState_rejected {C σ P S M Wire : Type} (k : Collaborators C σ P S M Wire)
    (r : locatorResource C) (w : σ) (id : String) (resp : Response S)
    (h : '/' ∉ id.data) :
    ImportState k r w ⟨id⟩ resp =
      ⟨w, resp.Diagnostics.AddError "Invalid ID"
            ("Expected format: id = <namespace/name>, got: id = " ++ id),
        resp.State, []⟩ := by
  have hl := (strings_Split_length_lt_two id).mpr h
  simp [ImportState, hl]

theorem ImportState_seeded {C σ P S M Wire : Type} (k : Collaborators C σ P S M Wire)
    (r : locatorResource C) (w : σ) (id : String) (resp : Response S)
    (h : '/' ∈ id.data) :
    ImportState k r w ⟨id⟩ resp =
      ⟨w,
        (resp.Diagnostics.Append
            (k.StateSetAttribute resp.State ["metadata", "namespace"] (firstSegment id)).1).Append
          (k.StateSetAttribute
            (k.StateSetAttribute resp.State ["metadata", "namespace"] (firstSegment id)).2
            ["metadata", "name"] (secondSegment id)).1,
        (k.StateSetAttribute
            (k.StateSetAttribute resp.State ["metadata", "namespace"] (firstSegment id)).2
            ["metadata", "name"] (secondSegment id)).2,
        [.StateSetAttribute ["metadata", "namespace"] (firstSegment id),
         .StateSetAttribute ["metadata", "name"] (secondSegment id)]⟩ := by
  have hl : ¬ (strings_Split id '/').length < 2 := by
    rw [strings_Split_length_lt_two]
    exact not_not.mpr h
  simp only [ImportState, if_neg hl, strings_Split_first, strings_Split_second id h]


/-! ## Create -/

section Claims

variable {C σ P S M Wire : Type}

/-- C1. Read-after-create is mandatory and ordered. When the decode guard
passes, `FillMissingValues` returns the record `d1` and `ModelToAnyMap`
returns `body`, the Remote Client calls of `Create` are: one create call on
`create_rs_locator` with parameter map `{namespace: d1.metadata.namespace}` and
body `body`; then, if and only if that call succeeded, one fetch on
`read_rs_locator` with `{namespace: d1.metadata.namespace, name:
d1.metadata.name}`.  When the create call fails there is no fetch. -/
theorem C1_create_then_fetch (k : Collaborators C σ P S M Wire) (r : locatorResource C)
    (w : σ) (req : CreateRequest P) (resp : Response S) (d1 : M) (body : Wire)
    (hg : (resp.Diagnostics.Append (k.PlanGet req.Plan).1).HasError = false)
    (hf : k.FillMissingValues (k.PlanGet req.Plan).2 = .ok d1)
    (ht : k.ModelToAnyMap d1 = .ok body) :
    (∀ w1 e,
        k.ClientCreate w r.client create_rs_locator [("namespace", k.MetadataNamespace d1)]
          body k.emptyResult = (w1, .error e) →
        (Create k r w req resp).calls.filter Call.isRemote =
          [.ClientCreate
            "/workflows/v1/support.eda.nokia.com/v1alpha1/namespaces/{namespace}/locators"
            [("namespace", k.MetadataNamespace d1)] body]) ∧
    (∀ w1 res1,
        k.ClientCreate w r.client create_rs_locator [("namespace", k.MetadataNamespace d1)]
          body k.emptyResult = (w1, .ok res1) →
        (Create k r w req resp).calls.filter Call.isRemote =
          [.ClientCreate
            "/workflows/v1/support.eda.nokia.com/v1alpha1/namespaces/{namespace}/locators"
            [("namespace", k.MetadataNamespace d1)] body,
           .ClientGet
            "/workflows/v1/support.eda.nokia.com/v1alpha1/namespaces/{namespace}/locators/{name}"
            [("namespace", k.MetadataNamespace d1), ("name", k.MetadataName d1)]]) := by
  constructor
  · intro w1 e hc
    rw [Create_create_failed k r w req resp d1 body w1 e hg hf ht hc]
    simp [Call.isRemote, create_rs_locator]
  · intro w1 res1 hc
    rcases hr : k.ClientGet w1 r.client read_rs_locator
        [("namespace", k.MetadataNamespace d1), ("name", k.MetadataName d1)] res1
      with ⟨w2, e | res2⟩
    · rw [Create_get_failed k r w req resp d1 body w1 w2 res1 e hg hf ht hc hr]
      simp [Call.isRemote, create_rs_locator, read_rs_locator]
    · rcases hm : k.AnyMapToModel res2 d1 with e | d2
      · rw [Create_fromWire_failed k r w req resp d1 body w1 w2 res1 res2 e hg hf ht hc hr hm]
        simp [Call.isRemote, create_rs_locator, read_rs_locator]
      · rw [Create_succeeded k r w req resp d1 body w1 w2 res1 res2 d2 hg hf ht hc hr hm]
        simp [Call.isRemote, create_rs_locator, read_rs_locator]

/-- C2. `Create` aborts with no remote effect on a conversion failure: if
decoding the plan leaves an error in the diagnostics, or `FillMissingValues`
fails, or `ModelToAnyMap` fails on the filled record, then `Create` makes no
Remote Client call, the response has an error diagnostic, no state write is
made and the response state and the remote world are as on entry. -/
theorem C2_create_conversion_failure (k : Collaborators C σ P S M Wire)
    (r : locatorResource C) (w : σ) (req : CreateRequest P) (resp : Response S)
    (h : (resp.Diagnostics.Append (k.PlanGet req.Plan).1).HasError = true ∨
         (∃ e, k.FillMissingValues (k.PlanGet req.Plan).2 = .error e) ∨
         (∃ d1 e, k.FillMissingValues (k.PlanGet req.Plan).2 = .ok d1 ∧
            k.ModelToAnyMap d1 = .error e)) :
    (Create k r w req resp).calls.filter Call.isRemote = [] ∧
    (Create k r w req resp).Diagnostics.HasError = true ∧
    (Create k r w req resp).calls.filter Call.isStateWrite = [] ∧
    (Create k r w req resp).State = resp.State ∧
    (Create k r w req resp).world = w := by
  by_cases hg : (resp.Diagnostics.Append (k.PlanGet req.Plan).1).HasError = true
  · rw [Create_decode_failed k r w req resp hg]
    simp [Call.isRemote, Call.isStateWrite, hg]
  · have hg0 : (resp.Diagnostics.Append (k.PlanGet req.Plan).1).HasError = false := by
      simpa using hg
    rcases h with h | ⟨e, hf⟩ | ⟨d1, e, hf, ht⟩
    · exact absurd h hg
    · rw [Create_fill_failed k r w req resp e hg0 hf]
      simp [Call.isRemote, Call.isStateWrite, Diagnostics.HasError_AddError]
    · rw [Create_toWire_failed k r w req resp d1 e hg0 hf ht]
      simp [Call.isRemote, Call.isStateWrite, Diagnostics.HasError_AddError]

/-- C3. State is written only on full success. In `Create` and in `Read`, when
a remote call (create or fetch) or the wire-to-record conversion returns an
error, no state write is made and the response state on return is the
response state on entry.  When the create call of `Create` succeeds and its
read-back fetch fails, the create call is among the calls made. -/
theorem C3_state_only_on_success (k : Collaborators C σ P S M Wire) (r : locatorResource C)
    (w : σ) :
    (∀ (req : CreateRequest P) (resp : Response S) (d1 : M) (body : Wire),
      (resp.Diagnostics.Append (k.PlanGet req.Plan).1).HasError = false →
      k.FillMissingValues (k.PlanGet req.Plan).2 = .ok d1 →
      k.ModelToAnyMap d1 = .ok body →
      (∀ w1 e,
        k.ClientCreate w r.client create_rs_locator [("namespace", k.MetadataNamespace d1)]
          body k.emptyResult = (w1, .error e) →
        (Create k r w req resp).calls.filter Call.isStateWrite = [] ∧
        (Create k r w req resp).State = resp.State) ∧
      (∀ w1 res1,
        k.ClientCreate w r.client create_rs_locator [("namespace", k.MetadataNamespace d1)]
          body k.emptyResult = (w1, .ok res1) →
        (∀ w2 e,
          k.ClientGet w1 r.client read_rs_locator
            [("namespace", k.MetadataNamespace d1), ("name", k.MetadataName d1)] res1
            = (w2, .error e) →
          (Create k r w req resp).calls.filter Call.isStateWrite = [] ∧
          (Create k r w req resp).State = resp.State ∧
          Call.ClientCreate create_rs_locator [("namespace", k.MetadataNamespace d1)] body
            ∈ (Create k r w req resp).calls) ∧
        (∀ w2 res2 e,
          k.ClientGet w1 r.client read_rs_locator
            [("namespace", k.MetadataNamespace d1), ("name", k.MetadataName d1)] res1
            = (w2, .ok res2) →
          k.AnyMapToModel res2 d1 = .error e →
          (Create k r w req resp).calls.filter Call.isStateWrite = [] ∧
          (Create k r w req resp).State = resp.State))) ∧
    (∀ (req : ReadRequest S) (resp : Response S),
      (resp.Diagnostics.Append (k.StateGet req.State).1).HasError = false →
      (∀ w1 e,
        k.ClientGet w r.client read_rs_locator
          [("namespace", k.MetadataNamespace (k.StateGet req.State).2),
           ("name", k.MetadataName (k.StateGet req.State).2)] k.emptyResult
          = (w1, .error e) →
        (Read k r w req resp).calls.filter Call.isStateWrite = [] ∧
        (Read k r w req resp).State = resp.State) ∧
      (∀ w1 res e,
        k.ClientGet w r.client read_rs_locator
          [("namespace", k.MetadataNamespace (k.StateGet req.State).2),
           ("name", k.MetadataName (k.StateGet req.State).2)] k.emptyResult
          = (w1, .ok res) →
        k.AnyMapToModel res (k.StateGet req.State).2 = .error e →
        (Read k r w req resp).calls.filter Call.isStateWrite = [] ∧
        (Read k r w req resp).State = resp.State)) := by
  refine ⟨?_, ?_⟩
  · intro req resp d1 body hg hf ht
    refine ⟨?_, ?_⟩
    · intro w1 e hc
      rw [Create_create_failed k r w req resp d1 body w1 e hg hf ht hc]
      simp [Call.isStateWrite]
    · intro w1 res1 hc
      refine ⟨?_, ?_⟩
      · intro w2 e hr
        rw [Create_get_failed k r w req resp d1 body w1 w2 res1 e hg hf ht hc hr]
        simp [Call.isStateWrite]
      · intro w2 res2 e hr hm
        rw [Create_fromWire_failed k r w req resp d1 body w1 w2 res1 res2 e hg hf ht hc hr hm]
        simp [Call.isStateWrite]
  · intro req resp hg
    refine ⟨?_, ?_⟩
    · intro w1 e hr
      rw [Read_get_failed k r w req resp w1 e hg hr]
      simp [Call.isStateWrite]
    · intro w1 res e hr hm
      rw [Read_fromWire_failed k r w req resp w1 res e hg hr hm]
      simp [Call.isStateWrite]

theorem C1_create_then_fetch_witness :
    (Create Demo.collab Demo.rs [.error "409 Conflict"] ⟨some Demo.plan⟩
        Demo.blank).calls.filter Call.isRemote =
      [.ClientCreate
        "/workflows/v1/support.eda.nokia.com/v1alpha1/namespaces/{namespace}/locators"
        [("namespace", "prod")] Demo.served] ∧
    (Create Demo.collab Demo.rs [.ok Demo.served, .ok Demo.served] ⟨some Demo.plan⟩
        Demo.blank).calls.filter Call.isRemote =
      [.ClientCreate
        "/workflows/v1/support.eda.nokia.com/v1alpha1/namespaces/{namespace}/locators"
        [("namespace", "prod")] Demo.served,
       .ClientGet
        "/workflows/v1/support.eda.nokia.com/v1alpha1/namespaces/{namespace}/locators/{name}"
        [("namespace", "prod"), ("name", "loc-1")]] :=
  ⟨(C1_create_then_fetch Demo.collab Demo.rs [.error "409 Conflict"] ⟨some Demo.plan⟩
      Demo.blank Demo.plan Demo.served (by decide) (by rfl) (by rfl)).1
      [] "409 Conflict" (by rfl),
   (C1_create_then_fetch Demo.collab Demo.rs [.ok Demo.served, .ok Demo.served]
      ⟨some Demo.plan⟩ Demo.blank Demo.plan Demo.served (by decide) (by rfl) (by rfl)).2
      [.ok Demo.served] Demo.served (by rfl)⟩

theorem C2_create_conversion_failure_witness :
    ((Create Demo.collab Demo.rs [.ok Demo.served] ⟨none⟩ Demo.blank).calls.filter
        Call.isRemote = [] ∧
      (Create Demo.collab Demo.rs [.ok Demo.served] ⟨none⟩ Demo.blank).Diagnostics.HasError
        = true ∧
      (Create Demo.collab Demo.rs [.ok Demo.served] ⟨none⟩ Demo.blank).calls.filter
        Call.isStateWrite = [] ∧
      (Create Demo.collab Demo.rs [.ok Demo.served] ⟨none⟩ Demo.blank).State = none ∧
      (Create Demo.collab Demo.rs [.ok Demo.served] ⟨none⟩ Demo.blank).world
        = [.ok Demo.served]) ∧
    ((Create Demo.collab Demo.rs [.ok Demo.served] ⟨some ⟨"prod", "", "", ""⟩⟩
        Demo.blank).calls.filter Call.isRemote = [] ∧
      (Create Demo.collab Demo.rs [.ok Demo.served] ⟨some ⟨"prod", "", "", ""⟩⟩
        Demo.blank).Diagnostics.HasError = true ∧
      (Create Demo.collab Demo.rs [.ok Demo.served] ⟨some ⟨"prod", "", "", ""⟩⟩
        Demo.blank).calls.filter Call.isStateWrite = [] ∧
      (Create Demo.collab Demo.rs [.ok Demo.served] ⟨some ⟨"prod", "", "", ""⟩⟩
        Demo.blank).State = none ∧
      (Create Demo.collab Demo.rs [.ok Demo.served] ⟨some ⟨"prod", "", "", ""⟩⟩
        Demo.blank).world = [.ok Demo.served]) ∧
    ((Create Demo.collab Demo.rs [.ok Demo.served] ⟨some ⟨"", "loc-1", "", ""⟩⟩
        Demo.blank).calls.filter Call.isRemote = [] ∧
      (Create Demo.collab Demo.rs [.ok Demo.served] ⟨some ⟨"", "loc-1", "", ""⟩⟩
        Demo.blank).Diagnostics.HasError = true ∧
      (Create Demo.collab Demo.rs [.ok Demo.served] ⟨some ⟨"", "loc-1", "", ""⟩⟩
        Demo.blank).calls.filter Call.isStateWrite = [] ∧
      (Create Demo.collab Demo.rs [.ok Demo.served] ⟨some ⟨"", "loc-1", "", ""⟩⟩
        Demo.blank).State = none ∧
      (Create Demo.collab Demo.rs [.ok Demo.served] ⟨some ⟨"", "loc-1", "", ""⟩⟩
        Demo.blank).world = [.ok Demo.served]) :=
  ⟨C2_create_conversion_failure Demo.collab Demo.rs [.ok Demo.served] ⟨none⟩ Demo.blank
      (Or.inl (by decide)),
   C2_create_conversion_failure Demo.collab Demo.rs [.ok Demo.served]
      ⟨some ⟨"prod", "", "", ""⟩⟩ Demo.blank
      (Or.inr (Or.inl ⟨"metadata.name is unknown", by rfl⟩)),
   C2_create_conversion_failure Demo.collab Demo.rs [.ok Demo.served]
      ⟨some ⟨"", "loc-1", "", ""⟩⟩ Demo.blank
      (Or.inr (Or.inr ⟨⟨"", "loc-1", "", ""⟩, "metadata.namespace is empty",
        by rfl, by rfl⟩))⟩

theorem C3_state_only_on_success_witness :
    ((Create Demo.collab Demo.rs [.error "409 Conflict"] ⟨some Demo.plan⟩
        Demo.blank).calls.filter Call.isStateWrite = [] ∧
      (Create Demo.collab Demo.rs [.error "409 Conflict"] ⟨some Demo.plan⟩
        Demo.blank).State = none) ∧
    ((Create Demo.collab Demo.rs [.ok Demo.served, .error "503 Unavailable"]
        ⟨some Demo.plan⟩ Demo.blank).calls.filter Call.isStateWrite = [] ∧
      (Create Demo.collab Demo.rs [.ok Demo.served, .error "503 Unavailable"]
        ⟨some Demo.plan⟩ Demo.blank).State = none ∧
      Call.ClientCreate create_rs_locator [("namespace", "prod")] Demo.served ∈
        (Create Demo.collab Demo.rs [.ok Demo.served, .error "503 Unavailable"]
          ⟨some Demo.plan⟩ Demo.blank).calls) ∧
    ((Create Demo.collab Demo.rs [.ok [], .ok [("kind", "Locator")]] ⟨some Demo.plan⟩
        Demo.blank).calls.filter Call.isStateWrite = [] ∧
      (Create Demo.collab Demo.rs [.ok [], .ok [("kind", "Locator")]] ⟨some Demo.plan⟩
        Demo.blank).State = none) ∧
    ((Read Demo.collab Demo.rs [.error "404 Not Found"] ⟨some Demo.plan⟩
        ⟨[], some Demo.plan⟩).calls.filter Call.isStateWrite = [] ∧
      (Read Demo.collab Demo.rs [.error "404 Not Found"] ⟨some Demo.plan⟩
        ⟨[], some Demo.plan⟩).State = some Demo.plan) ∧
    ((Read Demo.collab Demo.rs [.ok [("kind", "Locator")]] ⟨some Demo.plan⟩
        ⟨[], some Demo.plan⟩).calls.filter Call.isStateWrite = [] ∧
      (Read Demo.collab Demo.rs [.ok [("kind", "Locator")]] ⟨some Demo.plan⟩
        ⟨[], some Demo.plan⟩).State = some Demo.plan) :=
  ⟨((C3_state_only_on_success Demo.collab Demo.rs [.error "409 Conflict"]).1
      ⟨some Demo.plan⟩ Demo.blank Demo.plan Demo.served (by decide) (by rfl) (by rfl)).1
      [] "409 Conflict" (by rfl),
   (((C3_state_only_on_success Demo.collab Demo.rs
        [.ok Demo.served, .error "503 Unavailable"]).1
      ⟨some Demo.plan⟩ Demo.blank Demo.plan Demo.served (by decide) (by rfl) (by rfl)).2
      [.error "503 Unavailable"] Demo.served (by rfl)).1 [] "503 Unavailable" (by rfl),
   (((C3_state_only_on_success Demo.collab Demo.rs
        [.ok [], .ok [("kind", "Locator")]]).1
      ⟨some Demo.plan⟩ Demo.blank Demo.plan Demo.served (by decide) (by rfl) (by rfl)).2
      [.ok [("kind", "Locator")]] [] (by rfl)).2 [] [("kind", "Locator")]
      "result has no name" (by rfl) (by rfl),
   ((C3_state_only_on_success Demo.collab Demo.rs [.error "404 Not Found"]).2
      ⟨some Demo.plan⟩ ⟨[], some Demo.plan⟩ (by decide)).1 [] "404 Not Found" (by rfl),
   ((C3_state_only_on_success Demo.collab Demo.rs [.ok [("kind", "Locator")]]).2
      ⟨some Demo.plan⟩ ⟨[], some Demo.plan⟩ (by decide)).2 [] [("kind", "Locator")]
      "result has no name" (by rfl) (by rfl)⟩

/-! ## ImportState -/

/-- C4. `ImportState` rejects exactly the identifiers with fewer than two
"/"-separated segments, which are the identifiers without a "/" character.
A rejected identifier gets the "Invalid ID" error, whose detail names the
`<namespace/name>` format and ends with the identifier; no attribute is set
and the state is untouched.  Every other identifier makes `ImportState` set
attributes and add only the diagnostics of those calls; "/" and "ns/" are
among them, with empty segments. -/
theorem C4_import_rejects_iff_no_slash (k : Collaborators C σ P S M Wire)
    (r : locatorResource C) (w : σ) (id : String) (resp : Response S) :
    ((strings_Split id '/').length < 2 ↔ '/' ∉ id.data) ∧
    ((ImportState k r w ⟨id⟩ resp).calls = [] ↔ (strings_Split id '/').length < 2) ∧
    ((strings_Split id '/').length < 2 →
      (ImportState k r w ⟨id⟩ resp).Diagnostics =
        resp.Diagnostics.AddError "Invalid ID"
          ("Expected format: id = <namespace/name>, got: id = " ++ id) ∧
      (⟨Severity.error, "Invalid ID",
          "Expected format: id = <namespace/name>, got: id = " ++ id⟩ : Diagnostic) ∈
        (ImportState k r w ⟨id⟩ resp).Diagnostics ∧
      (ImportState k r w ⟨id⟩ resp).Diagnostics.HasError = true ∧
      (ImportState k r w ⟨id⟩ resp).State = resp.State) ∧
    (¬ (strings_Split id '/').length < 2 →
      (ImportState k r w ⟨id⟩ resp).Diagnostics =
        (resp.Diagnostics.Append
            (k.StateSetAttribute resp.State ["metadata", "namespace"] (firstSegment id)).1).Append
          (k.StateSetAttribute
            (k.StateSetAttribute resp.State ["metadata", "namespace"] (firstSegment id)).2
            ["metadata", "name"] (secondSegment id)).1) ∧
    (ImportState k r w ⟨"/"⟩ resp).calls =
      [.StateSetAttribute ["metadata", "namespace"] "",
       .StateSetAttribute ["metadata", "name"] ""] ∧
    (ImportState k r w ⟨"ns/"⟩ resp).calls =
      [.StateSetAttribute ["metadata", "namespace"] "ns",
       .StateSetAttribute ["metadata", "name"] ""] := by
  refine ⟨strings_Split_length_lt_two id, ?_, ?_, ?_, ?_, ?_⟩
  · by_cases h : '/' ∈ id.data
    · rw [ImportState_seeded k r w id resp h, strings_Split_length_lt_two]
      simp [h]
    · rw [ImportState_rejected k r w id resp h, strings_Split_length_lt_two]
      simp [h]
  · intro hl
    have h := (strings_Split_length_lt_two id).mp hl
    rw [ImportState_rejected k r w id resp h]
    exact ⟨rfl, Diagnostics.mem_AddError _ _ _, Diagnostics.HasError_AddError _ _ _, rfl⟩
  · intro hl
    have h : '/' ∈ id.data := by
      by_contra hn
      exact hl ((strings_Split_length_lt_two id).mpr hn)
    rw [ImportState_seeded k r w id resp h]
  · rw [ImportState_seeded k r w "/" resp (by decide)]
    have h1 : firstSegment "/" = "" := by decide
    have h2 : secondSegment "/" = "" := by decide
    rw [h1, h2]
  · rw [ImportState_seeded k r w "ns/" resp (by decide)]
    have h1 : firstSegment "ns/" = "ns" := by decide
    have h2 : secondSegment "ns/" = "" := by decide
    rw [h1, h2]

theorem C4_import_rejects_iff_no_slash_witness :
    ((ImportState Demo.collab Demo.rs ([] : Demo.Remote) ⟨"badid"⟩ Demo.blank).Diagnostics =
        [⟨Severity.error, "Invalid ID",
          "Expected format: id = <namespace/name>, got: id = badid"⟩] ∧
      (ImportState Demo.collab Demo.rs ([] : Demo.Remote) ⟨"badid"⟩ Demo.blank).State = none) ∧
    ((ImportState Demo.collab Demo.rs ([] : Demo.Remote) ⟨""⟩ Demo.blank).Diagnostics =
        [⟨Severity.error, "Invalid ID",
          "Expected format: id = <namespace/name>, got: id = "⟩] ∧
      (ImportState Demo.collab Demo.rs ([] : Demo.Remote) ⟨""⟩ Demo.blank).State = none) ∧
    (ImportState Demo.collab Demo.rs ([] : Demo.Remote) ⟨"ns/"⟩ Demo.blank).Diagnostics = [] :=
  ⟨⟨((C4_import_rejects_iff_no_slash Demo.collab Demo.rs ([] : Demo.Remote) "badid"
        Demo.blank).2.2.1 (by decide)).1,
    ((C4_import_rejects_iff_no_slash Demo.collab Demo.rs ([] : Demo.Remote) "badid"
        Demo.blank).2.2.1 (by decide)).2.2.2⟩,
   ⟨((C4_import_rejects_iff_no_slash Demo.collab Demo.rs ([] : Demo.Remote) ""
        Demo.blank).2.2.1 (by decide)).1,
    ((C4_import_rejects_iff_no_slash Demo.collab Demo.rs ([] : Demo.Remote) ""
        Demo.blank).2.2.1 (by decide)).2.2.2⟩,
   (C4_import_rejects_iff_no_slash Demo.collab Demo.rs ([] : Demo.Remote) "ns/"
        Demo.blank).2.2.2.1 (by decide)⟩

/-- C5. `ImportState` seeds only the identifying key set. For an identifier
with at least one "/", it sets `metadata.namespace` to the text before the
first "/" and then `metadata.name` to the text between the first and the
second "/" (or the end), and makes no other call; the state and diagnostics
on return are those of the two `SetAttribute` calls.  The run is the same as
for the identifier cut before its second "/", so the text from the second "/"
onward has no effect. -/
theorem C5_import_seeds_two_segments (k : Collaborators C σ P S M Wire)
    (r : locatorResource C) (w : σ) (id : String) (resp : Response S)
    (h : '/' ∈ id.data) :
    ImportState k r w ⟨id⟩ resp =
      ⟨w,
        (resp.Diagnostics.Append
            (k.StateSetAttribute resp.State ["metadata", "namespace"] (firstSegment id)).1).Append
          (k.StateSetAttribute
            (k.StateSetAttribute resp.State ["metadata", "namespace"] (firstSegment id)).2
            ["metadata", "name"] (secondSegment id)).1,
        (k.StateSetAttribute
            (k.StateSetAttribute resp.State ["metadata", "namespace"] (firstSegment id)).2
            ["metadata", "name"] (secondSegment id)).2,
        [.StateSetAttribute ["metadata", "namespace"] (firstSegment id),
         .StateSetAttribute ["metadata", "name"] (secondSegment id)]⟩ ∧
    ImportState k r w ⟨id⟩ resp =
      ImportState k r w ⟨firstSegment id ++ "/" ++ secondSegment id⟩ resp := by
  refine ⟨ImportState_seeded k r w id resp h, ?_⟩
  have ha : '/' ∉ (firstSegment id).data := not_mem_takeWhile_ne '/' _
  have hcut : (firstSegment id ++ "/" ++ secondSegment id).data =
      (firstSegment id).data ++ '/' :: (secondSegment id).data := by
    simp [String.data_append]
  have h' : '/' ∈ (firstSegment id ++ "/" ++ secondSegment id).data := by
    rw [hcut]
    simp
  have h1 : firstSegment (firstSegment id ++ "/" ++ secondSegment id) = firstSegment id := by
    rw [firstSegment, hcut, takeWhile_ne_append_sep '/' _ _ ha]
  have h2 : secondSegment (firstSegment id ++ "/" ++ secondSegment id) = secondSegment id := by
    have hb : '/' ∉ (secondSegment id).data := not_mem_takeWhile_ne '/' _
    rw [secondSegment, hcut, dropWhile_ne_append_sep '/' _ _ ha]
    simp only [List.drop_succ_cons, List.drop_zero]
    rw [takeWhile_ne_of_not_mem '/' _ hb]
  rw [ImportState_seeded k r w id resp h, ImportState_seeded k r w _ resp h', h1, h2]

theorem C5_import_seeds_two_segments_witness :
    (ImportState Demo.collab Demo.rs ([] : Demo.Remote) ⟨"ns1/loc1"⟩ Demo.blank =
      ⟨[], [], some ⟨"ns1", "loc1", "", ""⟩,
        [.StateSetAttribute ["metadata", "namespace"] "ns1",
         .StateSetAttribute ["metadata", "name"] "loc1"]⟩) ∧
    (ImportState Demo.collab Demo.rs ([] : Demo.Remote) ⟨"a/b/c"⟩ Demo.blank =
      ImportState Demo.collab Demo.rs ([] : Demo.Remote) ⟨"a/b"⟩ Demo.blank) :=
  ⟨(C5_import_seeds_two_segments Demo.collab Demo.rs ([] : Demo.Remote) "ns1/loc1"
      Demo.blank (by decide)).1,
   (C5_import_seeds_two_segments Demo.collab Demo.rs ([] : Demo.Remote) "a/b/c"
      Demo.blank (by decide)).2⟩

/-! ## Update and Delete -/

/-- C6. `Update` always fails. For every request and every receiver, the one
returned by `NewLocatorResource` (nil client) included, the response on return
contains the error diagnostic "Update not supported" and so has an error; no
call to any collaborator is made, and the state and the remote world are as
on entry. -/
theorem C6_update_always_fails {G : Type} (r : locatorResource C) (w : σ)
    (req : UpdateRequest G P S) (resp : Response S) :
    ((Update r w req resp : Run σ S M Wire).Diagnostics =
      resp.Diagnostics.AddError "Update not supported"
        "This resource does not support update operation.") ∧
    (⟨Severity.error, "Update not supported",
        "This resource does not support update operation."⟩ : Diagnostic) ∈
      (Update r w req resp : Run σ S M Wire).Diagnostics ∧
    (Update r w req resp : Run σ S M Wire).Diagnostics.HasError = true ∧
    (Update r w req resp : Run σ S M Wire).calls = [] ∧
    (Update r w req resp : Run σ S M Wire).State = resp.State ∧
    (Update r w req resp : Run σ S M Wire).world = w ∧
    (Update (NewLocatorResource C) w req resp : Run σ S M Wire).Diagnostics.HasError = true ∧
    (Update (NewLocatorResource C) w req resp : Run σ S M Wire).calls = [] :=
  ⟨rfl, Diagnostics.mem_AddError _ _ _, Diagnostics.HasError_AddError _ _ _, rfl, rfl, rfl,
    Diagnostics.HasError_AddError _ _ _, rfl⟩

/-- C7. `Delete` never reports silent success on a remote failure. When the
decode guard passes, `Delete` makes exactly one Remote Client
call, the delete verb on a template equal to the read template with
parameter map `{namespace, name}` of the decoded record, and no other call
after it; the response has an error on return if and only if that call
returned an error; when it succeeded the diagnostics are those left by the
decoding and the state is as on entry. -/
theorem C7_delete_reports_remote_failure (k : Collaborators C σ P S M Wire)
    (r : locatorResource C) (w : σ) (req : DeleteRequest S) (resp : Response S)
    (hg : (resp.Diagnostics.Append (k.StateGet req.State).1).HasError = false) :
    (Delete k r w req resp).calls =
      [.StateGet,
       .ClientDelete
        "/workflows/v1/support.eda.nokia.com/v1alpha1/namespaces/{namespace}/locators/{name}"
        [("namespace", k.MetadataNamespace (k.StateGet req.State).2),
         ("name", k.MetadataName (k.StateGet req.State).2)]] ∧
    delete_rs_locator = read_rs_locator ∧
    ((Delete k r w req resp).Diagnostics.HasError = true ↔
      ∃ e, (k.ClientDelete w r.client delete_rs_locator
              [("namespace", k.MetadataNamespace (k.StateGet req.State).2),
               ("name", k.MetadataName (k.StateGet req.State).2)] k.emptyResult).2
            = .error e) ∧
    ((∃ res, (k.ClientDelete w r.client delete_rs_locator
              [("namespace", k.MetadataNamespace (k.StateGet req.State).2),
               ("name", k.MetadataName (k.StateGet req.State).2)] k.emptyResult).2
            = .ok res) →
      (Delete k r w req resp).Diagnostics =
        resp.Diagnostics.Append (k.StateGet req.State).1) ∧
    (Delete k r w req resp).State = resp.State := by
  rcases hd : k.ClientDelete w r.client delete_rs_locator
      [("namespace", k.MetadataNamespace (k.StateGet req.State).2),
       ("name", k.MetadataName (k.StateGet req.State).2)] k.emptyResult
    with ⟨w1, e | res⟩
  · rw [Delete_failed k r w req resp w1 e hg hd]
    refine ⟨by simp [delete_rs_locator], rfl, ?_, ?_, rfl⟩
    · simp [Diagnostics.HasError_AddError]
    · rintro ⟨res, hres⟩
      simp at hres
  · rw [Delete_succeeded k r w req resp w1 res hg hd]
    refine ⟨by simp [delete_rs_locator], rfl, ?_, ?_, rfl⟩
    · simp [hg]
    · intro _
      rfl

theorem C7_delete_reports_remote_failure_witness :
    ((Delete Demo.collab Demo.rs [.error "404 Not Found"] ⟨some Demo.plan⟩
        ⟨[], some Demo.plan⟩).Diagnostics.HasError = true ↔
      ∃ e, (Demo.call [.error "404 Not Found"] []).2 = .error e) ∧
    (Delete Demo.collab Demo.rs [.ok []] ⟨some Demo.plan⟩ ⟨[], some Demo.plan⟩).Diagnostics
      = [] ∧
    (Delete Demo.collab Demo.rs [.ok []] ⟨some Demo.plan⟩ ⟨[], some Demo.plan⟩).calls =
      [.StateGet,
       .ClientDelete
        "/workflows/v1/support.eda.nokia.com/v1alpha1/namespaces/{namespace}/locators/{name}"
        [("namespace", "prod"), ("name", "loc-1")]] :=
  ⟨(C7_delete_reports_remote_failure Demo.collab Demo.rs [.error "404 Not Found"]
      ⟨some Demo.plan⟩ ⟨[], some Demo.plan⟩ (by decide)).2.2.1,
   (C7_delete_reports_remote_failure Demo.collab Demo.rs [.ok []]
      ⟨some Demo.plan⟩ ⟨[], some Demo.plan⟩ (by decide)).2.2.2.1 ⟨[], by rfl⟩,
   (C7_delete_reports_remote_failure Demo.collab Demo.rs [.ok []]
      ⟨some Demo.plan⟩ ⟨[], some Demo.plan⟩ (by decide)).1⟩

/-! ## Error propagation -/

/-- C8. One diagnostic per failure, carrying the underlying error, with no
retry. `Create`, `Read` and `Delete` start with an empty diagnostics list and
an input that decodes without error.  When a codec step or a Remote Client
call returns the error `e`, the response on return holds exactly one error
diagnostic, whose detail is `e`, and the calls made are exactly the steps up
to the failing one: nothing runs after it and the failing verb appears
once. -/
theorem C8_one_diagnostic_per_failure (k : Collaborators C σ P S M Wire)
    (r : locatorResource C) (w : σ) (e : String) :
    (∀ (req : CreateRequest P) (resp : Response S),
      resp.Diagnostics = [] → (k.PlanGet req.Plan).1.HasError = false →
      (k.FillMissingValues (k.PlanGet req.Plan).2 = .error e →
        (Create k r w req resp).Diagnostics.Errors =
          [⟨Severity.error, "Error filling missing values", e⟩] ∧
        (Create k r w req resp).calls = [.PlanGet, .FillMissingValues]) ∧
      (∀ d1, k.FillMissingValues (k.PlanGet req.Plan).2 = .ok d1 →
        (k.ModelToAnyMap d1 = .error e →
          (Create k r w req resp).Diagnostics.Errors =
            [⟨Severity.error, "Error building request", e⟩] ∧
          (Create k r w req resp).calls = [.PlanGet, .FillMissingValues, .ModelToAnyMap]) ∧
        (∀ body, k.ModelToAnyMap d1 = .ok body →
          (∀ w1,
            k.ClientCreate w r.client create_rs_locator
              [("namespace", k.MetadataNamespace d1)] body k.emptyResult = (w1, .error e) →
            (Create k r w req resp).Diagnostics.Errors =
              [⟨Severity.error, "Error creating resource", e⟩] ∧
            (Create k r w req resp).calls =
              [.PlanGet, .FillMissingValues, .ModelToAnyMap,
               .ClientCreate create_rs_locator [("namespace", k.MetadataNamespace d1)] body]) ∧
          (∀ w1 res1,
            k.ClientCreate w r.client create_rs_locator
              [("namespace", k.MetadataNamespace d1)] body k.emptyResult = (w1, .ok res1) →
            (∀ w2,
              k.ClientGet w1 r.client read_rs_locator
                [("namespace", k.MetadataNamespace d1), ("name", k.MetadataName d1)] res1
                = (w2, .error e) →
              (Create k r w req resp).Diagnostics.Errors =
                [⟨Severity.error, "Error reading resource", e⟩] ∧
              (Create k r w req resp).calls =
                [.PlanGet, .FillMissingValues, .ModelToAnyMap,
                 .ClientCreate create_rs_locator [("namespace", k.MetadataNamespace d1)] body,
                 .ClientGet read_rs_locator
                  [("namespace", k.MetadataNamespace d1), ("name", k.MetadataName d1)]]) ∧
            (∀ w2 res2,
              k.ClientGet w1 r.client read_rs_locator
                [("namespace", k.MetadataNamespace d1), ("name", k.MetadataName d1)] res1
                = (w2, .ok res2) →
              k.AnyMapToModel res2 d1 = .error e →
              (Create k r w req resp).Diagnostics.Errors =
                [⟨Severity.error, "Failed to build response from API result", e⟩] ∧
              (Create k r w req resp).calls =
                [.PlanGet, .FillMissingValues, .ModelToAnyMap,
                 .ClientCreate create_rs_locator [("namespace", k.MetadataNamespace d1)] body,
                 .ClientGet read_rs_locator
                  [("namespace", k.MetadataNamespace d1), ("name", k.MetadataName d1)],
                 .AnyMapToModel res2]))))) ∧
    (∀ (req : ReadRequest S) (resp : Response S),
      resp.Diagnostics = [] → (k.StateGet req.State).1.HasError = false →
      (∀ w1,
        k.ClientGet w r.client read_rs_locator
          [("namespace", k.MetadataNamespace (k.StateGet req.State).2),
           ("name", k.MetadataName (k.StateGet req.State).2)] k.emptyResult
          = (w1, .error e) →
        (Read k r w req resp).Diagnostics.Errors =
          [⟨Severity.error, "Error reading resource", e⟩] ∧
        (Read k r w req resp).calls =
          [.StateGet, .ClientGet read_rs_locator
            [("namespace", k.MetadataNamespace (k.StateGet req.State).2),
             ("name", k.MetadataName (k.StateGet req.State).2)]]) ∧
      (∀ w1 res,
        k.ClientGet w r.client read_rs_locator
          [("namespace", k.MetadataNamespace (k.StateGet req.State).2),
           ("name", k.MetadataName (k.StateGet req.State).2)] k.emptyResult
          = (w1, .ok res) →
        k.AnyMapToModel res (k.StateGet req.State).2 = .error e →
        (Read k r w req resp).Diagnostics.Errors =
          [⟨Severity.error, "Failed to build response from API result", e⟩] ∧
        (Read k r w req resp).calls =
          [.StateGet, .ClientGet read_rs_locator
            [("namespace", k.MetadataNamespace (k.StateGet req.State).2),
             ("name", k.MetadataName (k.StateGet req.State).2)],
           .AnyMapToModel res])) ∧
    (∀ (req : DeleteRequest S) (resp : Response S),
      resp.Diagnostics = [] → (k.StateGet req.State).1.HasError = false →
      ∀ w1,
        k.ClientDelete w r.client delete_rs_locator
          [("namespace", k.MetadataNamespace (k.StateGet req.State).2),
           ("name", k.MetadataName (k.StateGet req.State).2)] k.emptyResult
          = (w1, .error e) →
        (Delete k r w req resp).Diagnostics.Errors =
          [⟨Severity.error, "Error deleting resource", e⟩] ∧
        (Delete k r w req resp).calls =
          [.StateGet, .ClientDelete delete_rs_locator
            [("namespace", k.MetadataNamespace (k.StateGet req.State).2),
             ("name", k.MetadataName (k.StateGet req.State).2)]]) := by
  refine ⟨?_, ?_, ?_⟩
  · intro req resp h0 hdec
    have hg : (resp.Diagnostics.Append (k.PlanGet req.Plan).1).HasError = false := by
      rw [h0, Diagnostics.nil_Append_HasError]
      exact hdec
    refine ⟨?_, ?_⟩
    · intro hf
      rw [Create_fill_failed k r w req resp e hg hf]
      exact ⟨Diagnostics.Errors_AddError _ _ _ hg, rfl⟩
    · intro d1 hf
      refine ⟨?_, ?_⟩
      · intro ht
        rw [Create_toWire_failed k r w req resp d1 e hg hf ht]
        exact ⟨Diagnostics.Errors_AddError _ _ _ hg, rfl⟩
      · intro body ht
        refine ⟨?_, ?_⟩
        · intro w1 hc
          rw [Create_create_failed k r w req resp d1 body w1 e hg hf ht hc]
          exact ⟨Diagnostics.Errors_AddError _ _ _ hg, rfl⟩
        · intro w1 res1 hc
          refine ⟨?_, ?_⟩
          · intro w2 hr
            rw [Create_get_failed k r w req resp d1 body w1 w2 res1 e hg hf ht hc hr]
            exact ⟨Diagnostics.Errors_AddError _ _ _ hg, rfl⟩
          · intro w2 res2 hr hm
            rw [Create_fromWire_failed k r w req resp d1 body w1 w2 res1 res2 e
              hg hf ht hc hr hm]
            exact ⟨Diagnostics.Errors_AddError _ _ _ hg, rfl⟩
  · intro req resp h0 hdec
    have hg : (resp.Diagnostics.Append (k.StateGet req.State).1).HasError = false := by
      rw [h0, Diagnostics.nil_Append_HasError]
      exact hdec
    refine ⟨?_, ?_⟩
    · intro w1 hr
      rw [Read_get_failed k r w req resp w1 e hg hr]
      exact ⟨Diagnostics.Errors_AddError _ _ _ hg, rfl⟩
    · intro w1 res hr hm
      rw [Read_fromWire_failed k r w req resp w1 res e hg hr hm]
      exact ⟨Diagnostics.Errors_AddError _ _ _ hg, rfl⟩
  · intro req resp h0 hdec
    have hg : (resp.Diagnostics.Append (k.StateGet req.State).1).HasError = false := by
      rw [h0, Diagnostics.nil_Append_HasError]
      exact hdec
    intro w1 hd
    rw [Delete_failed k r w req resp w1 e hg hd]
    exact ⟨Diagnostics.Errors_AddError _ _ _ hg, rfl⟩

theorem C8_one_diagnostic_per_failure_witness :
    (Create Demo.collab Demo.rs [.ok Demo.served] ⟨some ⟨"prod", "", "", ""⟩⟩
        Demo.blank).Diagnostics.Errors =
      [⟨Severity.error, "Error filling missing values", "metadata.name is unknown"⟩] ∧
    (Create Demo.collab Demo.rs [.ok Demo.served] ⟨some ⟨"", "loc-1", "", ""⟩⟩
        Demo.blank).calls = [.PlanGet, .FillMissingValues, .ModelToAnyMap] ∧
    (Create Demo.collab Demo.rs [.error "409 Conflict", .ok Demo.served] ⟨some Demo.plan⟩
        Demo.blank).calls =
      [.PlanGet, .FillMissingValues, .ModelToAnyMap,
       .ClientCreate create_rs_locator [("namespace", "prod")] Demo.served] ∧
    (Create Demo.collab Demo.rs [.ok Demo.served, .error "503 Unavailable"] ⟨some Demo.plan⟩
        Demo.blank).Diagnostics.Errors =
      [⟨Severity.error, "Error reading resource", "503 Unavailable"⟩] ∧
    (Create Demo.collab Demo.rs [.ok [], .ok [("kind", "Locator")]] ⟨some Demo.plan⟩
        Demo.blank).Diagnostics.Errors =
      [⟨Severity.error, "Failed to build response from API result", "result has no name"⟩] ∧
    (Read Demo.collab Demo.rs [.error "404 Not Found", .ok Demo.served] ⟨some Demo.plan⟩
        ⟨[], some Demo.plan⟩).calls =
      [.StateGet, .ClientGet read_rs_locator [("namespace", "prod"), ("name", "loc-1")]] ∧
    (Read Demo.collab Demo.rs [.ok [("kind", "Locator")]] ⟨some Demo.plan⟩
        ⟨[], some Demo.plan⟩).Diagnostics.Errors =
      [⟨Severity.error, "Failed to build response from API result", "result has no name"⟩] ∧
    (Delete Demo.collab Demo.rs [.error "404 Not Found", .ok []] ⟨some Demo.plan⟩
        ⟨[], some Demo.plan⟩).Diagnostics.Errors =
      [⟨Severity.error, "Error deleting resource", "404 Not Found"⟩] :=
  ⟨(((C8_one_diagnostic_per_failure Demo.collab Demo.rs [.ok Demo.served]
        "metadata.name is unknown").1
      ⟨some ⟨"prod", "", "", ""⟩⟩ Demo.blank rfl (by decide)).1 (by rfl)).1,
   ((((C8_one_diagnostic_per_failure Demo.collab Demo.rs [.ok Demo.served]
        "metadata.namespace is empty").1
      ⟨some ⟨"", "loc-1", "", ""⟩⟩ Demo.blank rfl (by decide)).2
      ⟨"", "loc-1", "", ""⟩ (by rfl)).1 (by rfl)).2,
   (((((C8_one_diagnostic_per_failure Demo.collab Demo.rs
        [.error "409 Conflict", .ok Demo.served] "409 Conflict").1
      ⟨some Demo.plan⟩ Demo.blank rfl (by decide)).2 Demo.plan (by rfl)).2
      Demo.served (by rfl)).1 [.ok Demo.served] (by rfl)).2,
   ((((((C8_one_diagnostic_per_failure Demo.collab Demo.rs
        [.ok Demo.served, .error "503 Unavailable"] "503 Unavailable").1
      ⟨some Demo.plan⟩ Demo.blank rfl (by decide)).2 Demo.plan (by rfl)).2
      Demo.served (by rfl)).2 [.error "503 Unavailable"] Demo.served (by rfl)).1
      [] (by rfl)).1,
   ((((((C8_one_diagnostic_per_failure Demo.collab Demo.rs
        [.ok [], .ok [("kind", "Locator")]] "result has no name").1
      ⟨some Demo.plan⟩ Demo.blank rfl (by decide)).2 Demo.plan (by rfl)).2
      Demo.served (by rfl)).2 [.ok [("kind", "Locator")]] [] (by rfl)).2
      [] [("kind", "Locator")] (by rfl) (by rfl)).1,
   (((C8_one_diagnostic_per_failure Demo.collab Demo.rs
        [.error "404 Not Found", .ok Demo.served] "404 Not Found").2.1
      ⟨some Demo.plan⟩ ⟨[], some Demo.plan⟩ rfl (by decide)).1
      [.ok Demo.served] (by rfl)).2,
   (((C8_one_diagnostic_per_failure Demo.collab Demo.rs
        [.ok [("kind", "Locator")]] "result has no name").2.1
      ⟨some Demo.plan⟩ ⟨[], some Demo.plan⟩ rfl (by decide)).2
      [] [("kind", "Locator")] (by rfl) (by rfl)).1,
   ((C8_one_diagnostic_per_failure Demo.collab Demo.rs
        [.error "404 Not Found", .ok []] "404 Not Found").2.2
      ⟨some Demo.plan⟩ ⟨[], some Demo.plan⟩ rfl (by decide)
      [.ok []] (by rfl)).1⟩

/-! ## Create followed by Read, import followed by Read -/

/-- C9. `Create` followed immediately by `Read` yields an identical hydrated
record, for a codec whose `FromWire` is a full replacement.  Let `Create`
succeed and store the record `d2`, converted from the wire result `res2` of
its read-back fetch.  Run `Read` on the state and the remote world `Create`
left: if its decode guard passes and its fetch returns the same wire result
`res2` (no intervening remote mutation), then `Read` passes the same record
`d2` to `State.Set`.  This holds although `Create` hands the fetch the result
map already filled by the create call and converts onto the filled plan
record, while `Read` starts from the empty map and converts onto the record
decoded from the stored state. -/
theorem C9_create_then_read_same_record (k : Collaborators C σ P S M Wire)
    (FromWire : Wire → Except String M)
    (r : locatorResource C) (w : σ) (req : CreateRequest P) (resp respR : Response S)
    (d1 : M) (body : Wire) (w1 w2 w3 : σ) (res1 res2 : Wire) (d2 : M)
    (hg : (resp.Diagnostics.Append (k.PlanGet req.Plan).1).HasError = false)
    (hf : k.FillMissingValues (k.PlanGet req.Plan).2 = .ok d1)
    (ht : k.ModelToAnyMap d1 = .ok body)
    (hc : k.ClientCreate w r.client create_rs_locator [("namespace", k.MetadataNamespace d1)]
            body k.emptyResult = (w1, .ok res1))
    (hr : k.ClientGet w1 r.client read_rs_locator
            [("namespace", k.MetadataNamespace d1), ("name", k.MetadataName d1)] res1
            = (w2, .ok res2))
    (hm : FromWire res2 = .ok d2)
    (hgR : (respR.Diagnostics.Append
              (k.StateGet (k.StateSet resp.State d2).2).1).HasError = false)
    (hfetch : k.ClientGet w2 r.client read_rs_locator
            [("namespace", k.MetadataNamespace (k.StateGet (k.StateSet resp.State d2).2).2),
             ("name", k.MetadataName (k.StateGet (k.StateSet resp.State d2).2).2)]
            k.emptyResult = (w3, .ok res2)) :
    (Create (withFullReplacement k FromWire) r w req resp).calls.getLast?
      = some (.StateSet d2) ∧
    (Create (withFullReplacement k FromWire) r w req resp).State
      = (k.StateSet resp.State d2).2 ∧
    (Read (withFullReplacement k FromWire) r
        (Create (withFullReplacement k FromWire) r w req resp).world
        ⟨(Create (withFullReplacement k FromWire) r w req resp).State⟩
        respR).calls.getLast? = some (.StateSet d2) ∧
    (Read (withFullReplacement k FromWire) r
        (Create (withFullReplacement k FromWire) r w req resp).world
        ⟨(Create (withFullReplacement k FromWire) r w req resp).State⟩
        respR).State = (k.StateSet respR.State d2).2 := by
  rw [Create_succeeded (withFullReplacement k FromWire) r w req resp d1 body w1 w2 res1 res2 d2
    hg hf ht hc hr hm]
  rw [Read_succeeded (withFullReplacement k FromWire) r w2
    ⟨((withFullReplacement k FromWire).StateSet resp.State d2).2⟩ respR w3 res2 d2
    hgR hfetch hm]
  exact ⟨rfl, rfl, rfl, rfl⟩

theorem C9_create_then_read_same_record_witness :
    (Create (withFullReplacement Demo.collab (fun m => Demo.fromWire m Demo.plan)) Demo.rs
        [.ok Demo.served, .ok Demo.created, .ok Demo.created]
        ⟨some Demo.plan⟩ Demo.blank).calls.getLast?
      = some (.StateSet ⟨"prod", "loc-1", "rack 7", "u-1"⟩) ∧
    (Create (withFullReplacement Demo.collab (fun m => Demo.fromWire m Demo.plan)) Demo.rs
        [.ok Demo.served, .ok Demo.created, .ok Demo.created]
        ⟨some Demo.plan⟩ Demo.blank).State = some ⟨"prod", "loc-1", "rack 7", "u-1"⟩ ∧
    (Read (withFullReplacement Demo.collab (fun m => Demo.fromWire m Demo.plan)) Demo.rs
        (Create (withFullReplacement Demo.collab (fun m => Demo.fromWire m Demo.plan)) Demo.rs
          [.ok Demo.served, .ok Demo.created, .ok Demo.created]
          ⟨some Demo.plan⟩ Demo.blank).world
        ⟨(Create (withFullReplacement Demo.collab (fun m => Demo.fromWire m Demo.plan)) Demo.rs
          [.ok Demo.served, .ok Demo.created, .ok Demo.created]
          ⟨some Demo.plan⟩ Demo.blank).State⟩
        ⟨[], some Demo.plan⟩).calls.getLast?
      = some (.StateSet ⟨"prod", "loc-1", "rack 7", "u-1"⟩) ∧
    (Read (withFullReplacement Demo.collab (fun m => Demo.fromWire m Demo.plan)) Demo.rs
        (Create (withFullReplacement Demo.collab (fun m => Demo.fromWire m Demo.plan)) Demo.rs
          [.ok Demo.served, .ok Demo.created, .ok Demo.created]
          ⟨some Demo.plan⟩ Demo.blank).world
        ⟨(Create (withFullReplacement Demo.collab (fun m => Demo.fromWire m Demo.plan)) Demo.rs
          [.ok Demo.served, .ok Demo.created, .ok Demo.created]
          ⟨some Demo.plan⟩ Demo.blank).State⟩
        ⟨[], some Demo.plan⟩).State = some ⟨"prod", "loc-1", "rack 7", "u-1"⟩ :=
  C9_create_then_read_same_record Demo.collab (fun m => Demo.fromWire m Demo.plan) Demo.rs
    [.ok Demo.served, .ok Demo.created, .ok Demo.created] ⟨some Demo.plan⟩ Demo.blank
    ⟨[], some Demo.plan⟩ Demo.plan Demo.served [.ok Demo.created, .ok Demo.created]
    [.ok Demo.created] [] Demo.served Demo.created ⟨"prod", "loc-1", "rack 7", "u-1"⟩
    (by decide) (by rfl) (by rfl) (by rfl) (by rfl) (by rfl) (by decide) (by rfl)

/-- C10, as stated, fails. `ImportState` on "ns1/loc1", with a remote ready
to serve the object, makes no Remote Client call: the remote is left with its
reply unserved and the state holds the two seeded attributes, not the record
converted from a fetch result. -/
theorem C10_import_hydrates_counterexample :
    ImportState Demo.collab Demo.rs [.ok Demo.adopted] ⟨"ns1/loc1"⟩ Demo.blank =
      ⟨[.ok Demo.adopted], [], some ⟨"ns1", "loc1", "", ""⟩,
        [.StateSetAttribute ["metadata", "namespace"] "ns1",
         .StateSetAttribute ["metadata", "name"] "loc1"]⟩ ∧
    (ImportState Demo.collab Demo.rs [.ok Demo.adopted] ⟨"ns1/loc1"⟩
        Demo.blank).calls.filter Call.isRemote = [] ∧
    (ImportState Demo.collab Demo.rs [.ok Demo.adopted] ⟨"ns1/loc1"⟩ Demo.blank).State ≠
      some ⟨"ns1", "loc1", "rack 9", ""⟩ := by
  decide

/-- C10, amended. `ImportState` only seeds the namespace and the name: for
an identifier with a "/" its calls are the two `SetAttribute` calls, none of
them to the Remote Client, and the remote world is left as it was.
Hydration happens when the caller then runs `Read` on the seeded state: if
the decode guard passes and the decoded record carries the seeded namespace
and name, `Read` makes exactly one Remote Client call, a fetch on the read
template with the seeded `{namespace, name}`, whatever that fetch returns;
and when the fetch and the conversion succeed, the state `Read` leaves is
`State.Set` of the record converted from that fetch result. -/
theorem C10_import_then_read_hydrates (k : Collaborators C σ P S M Wire)
    (r : locatorResource C) (w : σ) (id : String) (resp respR : Response S)
    (h : '/' ∈ id.data) :
    (ImportState k r w ⟨id⟩ resp).calls =
      [.StateSetAttribute ["metadata", "namespace"] (firstSegment id),
       .StateSetAttribute ["metadata", "name"] (secondSegment id)] ∧
    (ImportState k r w ⟨id⟩ resp).calls.filter Call.isRemote = [] ∧
    (ImportState k r w ⟨id⟩ resp).world = w ∧
    ((respR.Diagnostics.Append
        (k.StateGet (ImportState k r w ⟨id⟩ resp).State).1).HasError = false →
      k.MetadataNamespace (k.StateGet (ImportState k r w ⟨id⟩ resp).State).2
        = firstSegment id →
      k.MetadataName (k.StateGet (ImportState k r w ⟨id⟩ resp).State).2
        = secondSegment id →
      (Read k r (ImportState k r w ⟨id⟩ resp).world ⟨(ImportState k r w ⟨id⟩ resp).State⟩
          respR).calls.filter Call.isRemote =
        [.ClientGet
          "/workflows/v1/support.eda.nokia.com/v1alpha1/namespaces/{namespace}/locators/{name}"
          [("namespace", firstSegment id), ("name", secondSegment id)]] ∧
      (∀ w1 res d2,
        k.ClientGet w r.client read_rs_locator
          [("namespace", firstSegment id), ("name", secondSegment id)] k.emptyResult
          = (w1, .ok res) →
        k.AnyMapToModel res (k.StateGet (ImportState k r w ⟨id⟩ resp).State).2 = .ok d2 →
        (Read k r (ImportState k r w ⟨id⟩ resp).world
            ⟨(ImportState k r w ⟨id⟩ resp).State⟩ respR).calls =
          [.StateGet,
           .ClientGet
            "/workflows/v1/support.eda.nokia.com/v1alpha1/namespaces/{namespace}/locators/{name}"
            [("namespace", firstSegment id), ("name", secondSegment id)],
           .AnyMapToModel res, .StateSet d2] ∧
        (Read k r (ImportState k r w ⟨id⟩ resp).world
            ⟨(ImportState k r w ⟨id⟩ resp).State⟩ respR).State
          = (k.StateSet respR.State d2).2)) := by
  have hw : (ImportState k r w ⟨id⟩ resp).world = w := by
    rw [ImportState_seeded k r w id resp h]
  have hcalls : (ImportState k r w ⟨id⟩ resp).calls =
      [.StateSetAttribute ["metadata", "namespace"] (firstSegment id),
       .StateSetAttribute ["metadata", "name"] (secondSegment id)] := by
    rw [ImportState_seeded k r w id resp h]
  refine ⟨hcalls, ?_, hw, ?_⟩
  · rw [hcalls]
    simp [Call.isRemote]
  · intro hgR hns hnm
    rw [hw]
    have hpar : ([("namespace", k.MetadataNamespace
          (k.StateGet (ReadRequest.mk (ImportState k r w ⟨id⟩ resp).State).State).2),
        ("name", k.MetadataName
          (k.StateGet (ReadRequest.mk (ImportState k r w ⟨id⟩ resp).State).State).2)]
          : Params) =
        [("namespace", firstSegment id), ("name", secondSegment id)] := by
      simp [hns, hnm]
    refine ⟨?_, ?_⟩
    · rcases hr : k.ClientGet w r.client read_rs_locator
          [("namespace", firstSegment id), ("name", secondSegment id)] k.emptyResult
        with ⟨w1, e | res⟩
      · rw [← hpar] at hr
        rw [Read_get_failed k r w ⟨(ImportState k r w ⟨id⟩ resp).State⟩ respR w1 e hgR hr]
        simp [Call.isRemote, read_rs_locator, hns, hnm]
      · rw [← hpar] at hr
        rcases hm : k.AnyMapToModel res
            (k.StateGet (ReadRequest.mk (ImportState k r w ⟨id⟩ resp).State).State).2
          with e | d2
        · rw [Read_fromWire_failed k r w ⟨(ImportState k r w ⟨id⟩ resp).State⟩ respR w1 res e
            hgR hr hm]
          simp [Call.isRemote, read_rs_locator, hns, hnm]
        · rw [Read_succeeded k r w ⟨(ImportState k r w ⟨id⟩ resp).State⟩ respR w1 res d2
            hgR hr hm]
          simp [Call.isRemote, read_rs_locator, hns, hnm]
    · intro w1 res d2 hr hm
      rw [← hpar] at hr
      rw [Read_succeeded k r w ⟨(ImportState k r w ⟨id⟩ resp).State⟩ respR w1 res d2
        hgR hr hm]
      simp [hns, hnm, read_rs_locator]

theorem C10_import_then_read_hydrates_witness :
    (Read Demo.collab Demo.rs
        (ImportState Demo.collab Demo.rs [.error "404 Not Found"] ⟨"ns1/loc1"⟩
          Demo.blank).world
        ⟨(ImportState Demo.collab Demo.rs [.error "404 Not Found"] ⟨"ns1/loc1"⟩
          Demo.blank).State⟩
        ⟨[], some ⟨"ns1", "loc1", "", ""⟩⟩).calls.filter Call.isRemote =
      [.ClientGet
        "/workflows/v1/support.eda.nokia.com/v1alpha1/namespaces/{namespace}/locators/{name}"
        [("namespace", "ns1"), ("name", "loc1")]] ∧
    (Read Demo.collab Demo.rs
        (ImportState Demo.collab Demo.rs [.ok Demo.adopted] ⟨"ns1/loc1"⟩ Demo.blank).world
        ⟨(ImportState Demo.collab Demo.rs [.ok Demo.adopted] ⟨"ns1/loc1"⟩ Demo.blank).State⟩
        ⟨[], some ⟨"ns1", "loc1", "", ""⟩⟩).calls =
      [.StateGet,
       .ClientGet
        "/workflows/v1/support.eda.nokia.com/v1alpha1/namespaces/{namespace}/locators/{name}"
        [("namespace", "ns1"), ("name", "loc1")],
       .AnyMapToModel Demo.adopted, .StateSet ⟨"ns1", "loc1", "rack 9", ""⟩] ∧
    (Read Demo.collab Demo.rs
        (ImportState Demo.collab Demo.rs [.ok Demo.adopted] ⟨"ns1/loc1"⟩ Demo.blank).world
        ⟨(ImportState Demo.collab Demo.rs [.ok Demo.adopted] ⟨"ns1/loc1"⟩ Demo.blank).State⟩
        ⟨[], some ⟨"ns1", "loc1", "", ""⟩⟩).State = some ⟨"ns1", "loc1", "rack 9", ""⟩ :=
  ⟨((C10_import_then_read_hydrates Demo.collab Demo.rs [.error "404 Not Found"] "ns1/loc1"
      Demo.blank ⟨[], some ⟨"ns1", "loc1", "", ""⟩⟩ (by decide)).2.2.2
      (by decide) (by decide) (by decide)).1,
   ((C10_import_then_read_hydrates Demo.collab Demo.rs [.ok Demo.adopted] "ns1/loc1"
      Demo.blank ⟨[], some ⟨"ns1", "loc1", "", ""⟩⟩ (by decide)).2.2.2
      (by decide) (by decide) (by decide)).2 [] Demo.adopted ⟨"ns1", "loc1", "rack 9", ""⟩
      (by rfl) (by rfl)⟩

end Claims

end Locator
